import Mathlib

/-!
# livetv: resolution pipeline, manifest fetch and password handlers

A shallow embedding of `GetLiveM3U8`, `isValidM3U`, `GetM3U8Content` (with its `retry`
closure) and `RealLiveM3U8` of service/youtubedl.go, and of `LogoutHandler` and
`ChangePasswordHandler` of handler/api.go.

* Go strings are Lean strings; an `error` is identified with its message, `nil` is `none`.
* `time.Duration` and `int` are 64-bit: arithmetic that can overflow goes through `wrapInt64`.
* The two process-wide maps (`global.URLCache`, the status store behind `GetStatus`) are the
  first two fields of `Stores`; everything else that lives outside this file of the program
  (network, plugins, clock) is the field `ext` and is only touched through the operations of
  `Env`.
* Every function returns, next to its result, the stores it leaves behind and the list of the
  calls it made to its collaborators, in program order.
-/

namespace LiveTV

/-! ## Machine integers and time -/

/-- Two's-complement wrap-around of a 64-bit signed integer. -/
def wrapInt64 (x : Int) : Int := (x + 9223372036854775808) % 18446744073709551616 - 9223372036854775808

/-- Largest `time.Duration`. -/
def maxDuration : Int := 9223372036854775807

/-- Smallest `time.Duration`. -/
def minDuration : Int := -9223372036854775808

/-- The constant `time.Second`, in nanoseconds. -/
def Second : Int := 1000000000

/-- The constant `time.Minute`, in nanoseconds. -/
def Minute : Int := 60 * Second

/-- Product of two durations as Go computes it (`int64` multiplication). -/
def mulDuration (a b : Int) : Int := wrapInt64 (a * b)

/-- The method `Time.Sub`: the difference of two instants (in nanoseconds), saturated to the
range of `time.Duration`. -/
def Sub (t u : Int) : Int :=
  if t - u > maxDuration then maxDuration
  else if t - u < minDuration then minDuration
  else t - u

/-! ## Data model -/

/-- A Go `error`, identified with its message. -/
abbrev Error := String

/-- The type `model.LiveInfo`: a resolved stream. -/
structure LiveInfo where
  LiveUrl : String
  ExtraInfo : String
deriving DecidableEq, Repr

/-- The type `model.Channel`, restricted to the fields this file sets. -/
structure Channel where
  URL : String
  ProxyUrl : String
  Parser : String
deriving DecidableEq, Repr

/-- Modelled from the spec: the health classification of a channel (the declaration of the
constants `Ok`, `Warning`, `Error` is not among the sources). -/
inductive ChannelStatus
  | Ok
  | Warning
  | Error
deriving DecidableEq, Repr

/-- Modelled from the spec: the per-channel status record returned by `GetStatus` (its
declaration is not among the sources); the fields are the ones the sources read and write. -/
structure StatusInfo where
  Status : ChannelStatus
  Time : Int
  Msg : String
  RetryCount : Int
  CoolDownMultiplier : Int
deriving DecidableEq, Repr

/-- The type `url.Values`: keys with their lists of values. -/
abbrev Values := List (String × List String)

/-- An outbound `http.Request`: target, query and the `User-Agent` header. -/
structure Request where
  URL : String
  Query : Values
  UserAgent : String
deriving DecidableEq, Repr

/-- What `GetM3U8Content` reads of an `http.Response`; `Body` is the outcome of
`ioutil.ReadAll`. -/
structure Response where
  StatusCode : Int
  ContentType : String
  ContentLength : Int
  Body : Except Error String

/-- The process state: the resolution cache, the status store and the world outside. -/
structure Stores (ω : Type) where
  URLCache : String → Option LiveInfo
  statusCache : String → StatusInfo
  ext : ω

/-- One invocation of a plugin: `Parse liveUrl proxyUrl extraInfo`. -/
inductive PluginCall
  | Parse (liveUrl proxyUrl extraInfo : String)
deriving DecidableEq, Repr

/-- A call made by one of the functions of `youtubedl.go`, in program order. The plugin
invocations made inside `UpdateURLCacheSingle` are carried by its event. -/
inductive Event
  | GetStatus (url : String)
  | UpdateStatus (url : String) (status : ChannelStatus) (msg : String)
  | UpdateURLCacheSingle (ch : Channel) (resetCooldown : Bool) (plugin : List PluginCall)
  | GetM3U8Content (ChannelURL liveM3U8 ProxyUrl Parser : String) (flags : List Bool)
  | Do (req : Request)
  | Transform (req : Request) (li : LiveInfo)
  | Check (body : String) (li : Option LiveInfo)
  | GetVideoDuration (url : String)
deriving DecidableEq, Repr

/-- A resolution plugin: the mandatory `Parse` and the optional capabilities
`plugin.Transformer` and `plugin.HealthCheck`. -/
structure Plugin (ω : Type) where
  Parse : String → String → String → Stores ω → Except Error LiveInfo × Stores ω
  Transform : Option (Request → LiveInfo → Stores ω → Request × Stores ω)
  Check : Option (String → Option LiveInfo → Stores ω → Option Error × Stores ω)

/-- The collaborators of `youtubedl.go` that are not part of it: the clock, the constant
`MaxRetryCount`, the plugin registry, `UpdateURLCacheSingle`, the HTTP client and the duration
probe. A duration is a `float64`; `δ` stands for that type, of which the code uses the test
`> 0` and the two formats `%.0f` and `%.4f`. -/
structure Env (ω δ : Type) where
  Now : ω → Int
  MaxRetryCount : Int
  GetPlugin : String → Except Error (Plugin ω)
  UpdateURLCacheSingle : Channel → Bool → Stores ω → Except Error LiveInfo × Stores ω × List PluginCall
  NewRequest : String → Except Error Request
  Do : Request → Stores ω → Except Error Response × Stores ω
  GetVideoDuration : String → Stores ω → (δ × Option Error) × Stores ω
  positive : δ → Bool
  Sprintf0 : δ → String
  Sprintf4 : δ → String

/-! ## Status store -/

/-- Modelled from the spec: `GetStatus(key)` never fails and hands out the record of `key`
(a default one on first access); the store is therefore a total map and the records are
updated in place. -/
def GetStatus {ω : Type} (url : String) (s : Stores ω) : StatusInfo := s.statusCache url

/-- Replace the record of `url` in the status store. -/
def setStatus {ω : Type} (url : String) (r : StatusInfo) (s : Stores ω) : Stores ω :=
  { s with statusCache := fun k => if k = url then r else s.statusCache k }

/-- Modelled from the spec: `UpdateStatus(key, status, message)` overwrites status, message
and last-check time and leaves the counters in place (the function is not among the
sources). -/
def UpdateStatus {ω δ : Type} (env : Env ω δ) (url : String) (status : ChannelStatus)
    (msg : String) (s : Stores ω) : Stores ω :=
  setStatus url { GetStatus url s with Status := status, Msg := msg, Time := env.Now s.ext } s

/-! ## Resolution pipeline -/

/-- The interval computed at lines 43-46 of `GetLiveM3U8` from a cooldown multiplier. -/
def coolDownInterval (multiplier : Int) : Int :=
  let interval := mulDuration Second multiplier
  if interval > Minute * 2 then Minute * 2 else interval

/-- The statement `status.CoolDownMultiplier *= 2` guarded by `< 1024` (lines 51-53), on the
record of `url`. -/
def bumpCoolDown {ω : Type} (url : String) (s : Stores ω) : Stores ω :=
  let status := GetStatus url s
  if status.CoolDownMultiplier < 1024 then
    setStatus url { status with CoolDownMultiplier := wrapInt64 (status.CoolDownMultiplier * 2) } s
  else s

/-- The function `GetLiveM3U8`. -/
def GetLiveM3U8 {ω δ : Type} (env : Env ω δ) (youtubeURL proxyUrl Parser : String)
    (s : Stores ω) : Except Error LiveInfo × Stores ω × List Event :=
  match s.URLCache youtubeURL with
  | some liveInfo => (.ok liveInfo, s, [])
  | none =>
    let status := GetStatus youtubeURL s
    if Sub (env.Now s.ext) status.Time > coolDownInterval status.CoolDownMultiplier then
      let ch : Channel := { URL := youtubeURL, ProxyUrl := proxyUrl, Parser := Parser }
      match env.UpdateURLCacheSingle ch true s with
      | (.ok liveInfo, s1, calls) =>
        (.ok liveInfo, s1, [.GetStatus youtubeURL, .UpdateURLCacheSingle ch true calls])
      | (.error err, s1, calls) =>
        (.error err, bumpCoolDown youtubeURL s1,
          [.GetStatus youtubeURL, .UpdateURLCacheSingle ch true calls])
    else
      (.error "parser cooling down", s, [.GetStatus youtubeURL])

/-- The function `RealLiveM3U8`. -/
def RealLiveM3U8 {ω : Type} (GetPlugin : String → Except Error (Plugin ω))
    (liveUrl proxyUrl Parser : String) (s : Stores ω) :
    Except Error LiveInfo × Stores ω × List PluginCall :=
  let Parser := if Parser = "" then "youtube" else Parser
  match GetPlugin Parser with
  | .ok p =>
    match s.URLCache liveUrl with
    | some liveInfo =>
      let r := p.Parse liveUrl proxyUrl liveInfo.ExtraInfo s
      (r.1, r.2, [.Parse liveUrl proxyUrl liveInfo.ExtraInfo])
    | none =>
      let r := p.Parse liveUrl proxyUrl "" s
      (r.1, r.2, [.Parse liveUrl proxyUrl ""])
  | .error err => (.error err, s, [])

/-- Modelled from the spec: `UpdateURLCacheSingle(channel, resetCooldown)` is `ForceResolve` of
section 4.4 (the function is not among the sources). Steps 1 and 2 are `RealLiveM3U8`: look
the plugin up, an unknown strategy aborts with the registry's error and nothing else happens;
otherwise call the plugin with the extra information of the prior cache entry. Step 3: on
success store the result in the cache and, when `resetCooldown`, reset the multiplier to 1 and
the retry count to 0. Step 4: when the plugin's resolution fails, double the multiplier, capped
at 1024, hand the error on and leave the cache entry. -/
def UpdateURLCacheSingle {ω : Type} (GetPlugin : String → Except Error (Plugin ω))
    (channel : Channel) (resetCooldown : Bool) (s : Stores ω) :
    Except Error LiveInfo × Stores ω × List PluginCall :=
  match RealLiveM3U8 GetPlugin channel.URL channel.ProxyUrl channel.Parser s with
  | (.ok liveInfo, s1, calls) =>
    let s2 : Stores ω :=
      { s1 with URLCache := fun k => if k = channel.URL then some liveInfo else s1.URLCache k }
    let s3 :=
      if resetCooldown then
        setStatus channel.URL
          { GetStatus channel.URL s2 with CoolDownMultiplier := 1, RetryCount := 0 } s2
      else s2
    (.ok liveInfo, s3, calls)
  | (.error err, s1, []) => (.error err, s1, [])
  | (.error err, s1, call :: calls) => (.error err, bumpCoolDown channel.URL s1, call :: calls)

/-! ## Strings -/

/-- The predicate `unicode.IsSpace`. -/
def isSpace (c : Char) : Bool :=
  let n := c.toNat
  n = 9 || n = 10 || n = 11 || n = 12 || n = 13 || n = 32 || n = 133 || n = 160 ||
  n = 5760 || (8192 ≤ n && n ≤ 8202) || n = 8232 || n = 8233 || n = 8239 || n = 8287 ||
  n = 12288

/-- The function `strings.TrimSpace`. -/
def TrimSpace (s : String) : String :=
  String.mk ((s.data.dropWhile isSpace).rdropWhile isSpace)

/-- The function `strings.HasPrefix`. -/
def HasPrefix (s pre : String) : Bool := pre.data.isPrefixOf s.data

/-- Whether the characters `p` occur consecutively in `l`. -/
def containsChars : List Char → List Char → Bool
  | [], p => p.isPrefixOf []
  | c :: cs, p => p.isPrefixOf (c :: cs) || containsChars cs p

/-- The function `strings.Contains`. -/
def Contains (s substr : String) : Bool := containsChars s.data substr.data

/-- The function `strings.ToLower`, on the ASCII letters (no other character maps to a
letter of "mpegurl" or "text"). -/
def ToLower (s : String) : String := String.mk (s.data.map Char.toLower)

/-- The function `isValidM3U`. -/
def isValidM3U (content : String) : Bool :=
  let content := TrimSpace content
  HasPrefix content "#EXTM3U"

/-! ## Manifest fetch and validation -/

/-- The constant `DefaultUserAgent`. -/
def DefaultUserAgent : String :=
  "Mozilla/5.0 (Windows NT 10.0; Win64; x64) AppleWebKit/537.36 (KHTML, like Gecko) Chrome/122.0.0.0 Safari/537.36"

/-- How a call ends: it returns, or it panics. -/
inductive Res (α : Type)
  | ret (a : α)
  | panic (msg : String)

/-- What a call of `GetM3U8Content` leaves: `(content, m3u8url, error)` or a panic, the
stores and the calls made. -/
abbrev Run (ω : Type) := Res (String × String × Option Error) × Stores ω × List Event

/-- Put the calls `pre`, made earlier, in front of the calls of a run. -/
def after {ω : Type} (pre : List Event) : Option (Run ω) → Option (Run ω)
  | none => none
  | some (r, s, evs) => some (r, s, pre ++ evs)

/-- The method `url.Values.Add`. -/
def Add : Values → String → String → Values
  | [], key, value => [(key, [value])]
  | (k, vs) :: rest, key, value =>
    if k = key then (k, vs ++ [value]) :: rest else (k, vs) :: Add rest key value

/-- The loop of lines 122-129: the caller's query parameters that are forwarded, added to the
parameters of the resolved URL. -/
def forwardQuery (queries reqQuery : Values) : Values :=
  queries.foldl
    (fun q kv =>
      if HasPrefix kv.1 "header" || ["k", "c", "token"].contains kv.1 then q
      else kv.2.foldl (fun q value => Add q kv.1 value) q)
    reqQuery

/-- Lines 133-139: a plugin that is a `plugin.Transformer` decorates the request when the
channel has a cache entry. -/
def decorate {ω δ : Type} (env : Env ω δ) (Parser : String) (li : Option LiveInfo)
    (req : Request) (s : Stores ω) : Request × Stores ω × List Event :=
  match env.GetPlugin Parser with
  | .ok p =>
    match p.Transform, li with
    | some transform, some li =>
      let r := transform req li s
      (r.1, r.2, [.Transform req li])
    | _, _ => (req, s, [])
  | .error _ => (req, s, [])

/-- Lines 119-139: the request as it is sent: the user agent is set, the caller's query
parameters are forwarded and the plugin decorates the result. -/
def buildRequest {ω δ : Type} (env : Env ω δ) (c : Values) (Parser : String)
    (li : Option LiveInfo) (req0 : Request) (s : Stores ω) : Request × Stores ω × List Event :=
  decorate env Parser li
    { req0 with UserAgent := DefaultUserAgent, Query := forwardQuery c req0.Query } s

/-- The closure `retry` of `GetM3U8Content` (lines 75-94); `nested` is the recursive call of
line 83 as a function of the new stream URL. The `err` assigned at line 83 is the variable
declared by the `if` of line 81, so the closure returns the `err` it was given. -/
def retry {ω δ : Type} (env : Env ω δ) (retryFlag : Bool)
    (ChannelURL liveM3U8 ProxyUrl Parser : String)
    (nested : String → Stores ω → Option (Run ω))
    (bodyString : String) (err : Option Error) (s : Stores ω) : Option (Run ω) :=
  let newUrl := liveM3U8
  let chStatus := GetStatus ChannelURL s
  if !retryFlag && chStatus.RetryCount < env.MaxRetryCount then
    let ch : Channel := { URL := ChannelURL, ProxyUrl := ProxyUrl, Parser := Parser }
    match env.UpdateURLCacheSingle ch false s with
    | (.ok li, s1, calls) =>
      let s2 := UpdateStatus env ChannelURL .Warning "Unhealthy" s1
      let pre : List Event :=
        [.GetStatus ChannelURL, .UpdateURLCacheSingle ch false calls,
         .UpdateStatus ChannelURL .Warning "Unhealthy",
         .GetM3U8Content ChannelURL li.LiveUrl ProxyUrl Parser [true]]
      match nested li.LiveUrl s2 with
      | none => none
      | some (.panic msg, s3, evs) => some (.panic msg, s3, pre ++ evs)
      | some (.ret (bodyString1, newUrl1, none), s3, evs) =>
        some (.ret (bodyString1, newUrl1, err), UpdateStatus env ChannelURL .Ok "Live!" s3,
          pre ++ evs ++ [.UpdateStatus ChannelURL .Ok "Live!"])
      | some (.ret (bodyString1, newUrl1, some _), s3, evs) =>
        some (.ret (bodyString1, newUrl1, err), s3, pre ++ evs)
    | (.error _, s1, calls) =>
      some (.ret (bodyString, newUrl, err), s1,
        [.GetStatus ChannelURL, .UpdateURLCacheSingle ch false calls])
  else
    some (.ret (bodyString, newUrl, err), s, [.GetStatus ChannelURL])

/-- The manifest written at line 182 for a positive duration. -/
def vodManifest {ω δ : Type} (env : Env ω δ) (duration : δ) (liveM3U8 : String) : String :=
  "#EXTM3U\n#EXT-X-VERSION:3\n#EXT-X-TARGETDURATION:" ++ env.Sprintf0 duration ++
  "\n#EXT-X-PLAYLIST-TYPE:VOD\n#EXT-X-MEDIA-SEQUENCE:0\n#EXTINF:" ++ env.Sprintf4 duration ++
  ", video\n" ++ liveM3U8 ++ "\n#EXT-X-ENDLIST"

/-- The manifest written at line 185 when no positive duration is known. -/
def fakeManifest (liveM3U8 : String) : String :=
  "#EXTM3U\n#EXTINF:-1, video\n#EXT-X-PLAYLIST-TYPE:VOD\n" ++ liveM3U8 ++ "\n#EXT-X-ENDLIST"

/-- The `else` branch of lines 177-187 followed by the `return` of line 188: the content is
not a valid live manifest. In the inner `else`, line 184 calls `err.Error()`, which panics when
`err` is nil. -/
def fallback {ω δ : Type} (env : Env ω δ) (ChannelURL liveM3U8 : String) (s : Stores ω) :
    Run ω :=
  let s1 := UpdateStatus env ChannelURL .Warning "Url is not a live stream" s
  let evs : List Event :=
    [.UpdateStatus ChannelURL .Warning "Url is not a live stream", .GetVideoDuration ChannelURL]
  match env.GetVideoDuration ChannelURL s1 with
  | ((duration, none), s2) =>
    if env.positive duration then
      (.ret (vodManifest env duration liveM3U8, liveM3U8, none), s2, evs)
    else
      (.panic "invalid memory address or nil pointer dereference", s2, evs)
  | ((_, some _), s2) => (.ret (fakeManifest liveM3U8, liveM3U8, none), s2, evs)

/-- The first element of the variadic `flags`, false when there is none (lines 70-73). -/
def retryFlagOf : List Bool → Bool
  | [] => false
  | flag :: _ => flag

/-- The test of line 155 on the response headers. -/
def typeIsValid (resp : Response) : Bool :=
  let contentType := ToLower resp.ContentType
  resp.ContentLength < 10 * 1024 * 1024 &&
    (Contains contentType "mpegurl" || Contains contentType "text")

/-- The function `GetM3U8Content`; `c` is the query of the inbound request. The first argument
bounds the depth of the recursion of line 83: `none` is returned when it is used up. -/
def GetM3U8Content {ω δ : Type} (env : Env ω δ) :
    Nat → Values → String → String → String → String → List Bool → Stores ω → Option (Run ω)
  | 0, _, _, _, _, _, _, _ => none
  | fuel + 1, c, ChannelURL, liveM3U8, ProxyUrl, Parser, flags, s =>
    let retryFlag := retryFlagOf flags
    let retry := retry env retryFlag ChannelURL liveM3U8 ProxyUrl Parser
      (fun url s1 => GetM3U8Content env fuel c ChannelURL url ProxyUrl Parser [true] s1)
    let li := s.URLCache ChannelURL
    match env.NewRequest liveM3U8 with
    | .error err => some (.ret ("", liveM3U8, some err), s, [])
    | .ok req0 =>
      match buildRequest env c Parser li req0 s with
      | (req, s1, evs1) =>
        match env.Do req s1 with
        | (.error err, s2) => some (.ret ("", liveM3U8, some err), s2, evs1 ++ [.Do req])
        | (.ok resp, s2) =>
          if resp.StatusCode ≠ 200 then
            after (evs1 ++ [.Do req])
              (retry "" (some ("Server response: HTTP " ++ toString resp.StatusCode)) s2)
          else if typeIsValid resp then
            match resp.Body with
            | .error err => some (.ret ("", liveM3U8, some err), s2, evs1 ++ [.Do req])
            | .ok bodyBytes =>
              let bodyString := TrimSpace bodyBytes
              if isValidM3U bodyString then
                match env.GetPlugin Parser with
                | .ok p =>
                  match p.Check with
                  | some check =>
                    match check bodyString li s2 with
                    | (some healthErr, s3) =>
                      after (evs1 ++ [.Do req, .Check bodyString li])
                        (retry bodyString (some healthErr) s3)
                    | (none, s3) =>
                      some (.ret (bodyString, liveM3U8, none), s3,
                        evs1 ++ [.Do req, .Check bodyString li])
                  | none => some (.ret (bodyString, liveM3U8, none), s2, evs1 ++ [.Do req])
                | .error _ => some (.ret (bodyString, liveM3U8, none), s2, evs1 ++ [.Do req])
              else
                after (evs1 ++ [.Do req]) (some (fallback env ChannelURL liveM3U8 s2))
          else
            after (evs1 ++ [.Do req]) (some (fallback env ChannelURL liveM3U8 s2))

/-! ## Observations on a run -/

/-- The event is a call of `UpdateURLCacheSingle` (a reparse). -/
def Event.isReparse : Event → Bool
  | .UpdateURLCacheSingle _ _ _ => true
  | _ => false

/-- The event is a recursive call of `GetM3U8Content`. -/
def Event.isNested : Event → Bool
  | .GetM3U8Content _ _ _ _ _ => true
  | _ => false

/-- The event is a request sent by `client.Do`. -/
def Event.isDo : Event → Bool
  | .Do _ => true
  | _ => false

/-- The event is a plugin health check. -/
def Event.isCheck : Event → Bool
  | .Check _ _ => true
  | _ => false

/-- The event is not a recursive call of `GetM3U8Content`, or it is one whose variadic
`flags` is the single value `true`. -/
def Event.flagged : Event → Bool
  | .GetM3U8Content _ _ _ _ flags => flags == [true]
  | _ => true

/-- Number of calls of `UpdateURLCacheSingle` in a list of events. -/
def reparses (evs : List Event) : Nat := evs.countP Event.isReparse

/-- Number of recursive calls of `GetM3U8Content` in a list of events. -/
def recursions (evs : List Event) : Nat := evs.countP Event.isNested

/-- Number of requests sent in a list of events. -/
def fetches (evs : List Event) : Nat := evs.countP Event.isDo

/-- The calls made by a run (none when the run did not finish). -/
def eventsOf {ω : Type} : Option (Run ω) → List Event
  | none => []
  | some r => r.2.2

/-- The guarded doubling of lines 51-53 on a multiplier: twice the value (an `int`) while it
is below 1024, the value itself from 1024 on. -/
def doubled (m : Int) : Int := if m < 1024 then wrapInt64 (m * 2) else m

/-- The cooldown multiplier of the status record of `url`. -/
def multiplier {ω : Type} (url : String) (s : Stores ω) : Int :=
  (GetStatus url s).CoolDownMultiplier

/-- A failed cache-miss resolution of `url` through `GetLiveM3U8`: the cache has no entry, the
cooldown has passed, the call returns an error and leaves the stores `t`. -/
def FailedResolution {ω δ : Type} (env : Env ω δ) (url : String) (s t : Stores ω) : Prop :=
  ∃ proxyUrl Parser err,
    s.URLCache url = none ∧
    Sub (env.Now s.ext) (GetStatus url s).Time > coolDownInterval (multiplier url s) ∧
    (GetLiveM3U8 env url proxyUrl Parser s).1 = .error err ∧
    t = (GetLiveM3U8 env url proxyUrl Parser s).2.1

/-- The stores reached from `s` by a sequence of failed cache-miss resolutions of `url`,
between which anything may happen that leaves the multiplier of `url` alone (time passing,
other channels, status updates). -/
inductive FailedSeq {ω δ : Type} (env : Env ω δ) (url : String) : Stores ω → Stores ω → Prop
  | start (s : Stores ω) : FailedSeq env url s s
  | other (s t u : Stores ω) : FailedSeq env url s t → multiplier url u = multiplier url t →
      FailedSeq env url s u
  | failure (s t u : Stores ω) : FailedSeq env url s t → FailedResolution env url t u →
      FailedSeq env url s u

/-! ## Queries and manifests -/

/-- The values of `key` in a `url.Values` (the index expression `v[key]`): no values when the
key is absent. -/
def valuesAt : Values → String → List String
  | [], _ => []
  | (k, vs) :: rest, key => if k = key then vs else valuesAt rest key

/-- The function `strings.HasSuffix`. -/
def HasSuffix (s suffix : String) : Bool := suffix.data.isSuffixOf s.data

/-- The marker-prefixed convention of a synthesized manifest for the stream `liveM3U8`: it
begins with "#EXTM3U" and `isValidM3U` accepts it, it holds an "#EXTINF" duration record that
the stream URL follows (directly, or after the playlist-type tag) and it ends with
"#EXT-X-ENDLIST". -/
def Conventional (liveM3U8 body : String) : Prop :=
  HasPrefix body "#EXTM3U" = true ∧ isValidM3U body = true ∧
  HasSuffix body "#EXT-X-ENDLIST" = true ∧
  ∃ head duration between : String,
    (between = "" ∨ between = "#EXT-X-PLAYLIST-TYPE:VOD\n") ∧
    body = head ++ "#EXTINF:" ++ duration ++ ", video\n" ++ between ++ liveM3U8 ++
      "\n#EXT-X-ENDLIST"

/-! ## The password handlers of handler/api.go -/

/-- What `LogoutHandler` and `ChangePasswordHandler` use of a `gin.Context`: whether the
session value "logined" is `true`, the posted form, and the response written so far (no status
before the first write). -/
structure Context where
  logined : Bool
  PostForm : String → String
  status : Option Nat
  body : String

/-- The call `c.String(code, text)`: the text is appended to the body; the status is the one
of the first write, a later status cannot replace headers that were already written. -/
def respond (c : Context) (code : Nat) (text : String) : Context :=
  { c with status := some (c.status.getD code), body := c.body ++ text }

/-- A call to the configuration store: `global.SetConfig(key, value)`. -/
inductive ConfigCall
  | SetConfig (key value : String)
deriving DecidableEq, Repr

/-- The collaborators of the two handlers that are not part of `api.go`: the configuration
store behind `global.SetConfig`, with state `κ`, and `session.Save`. -/
structure HandlerEnv (κ : Type) where
  SetConfig : String → String → κ → Option Error × κ
  Save : Context → Option Error

/-- The function `LogoutHandler`. -/
def LogoutHandler {κ : Type} (env : HandlerEnv κ) (c : Context) : Context :=
  if c.logined != true then respond c 200 ""
  else
    let c1 := { c with logined := false }
    match env.Save c1 with
    | some err => respond c1 500 err
    | none => respond c1 200 ""

/-- The function `ChangePasswordHandler`: the context it leaves, the configuration it leaves
and the calls it made to the configuration store. -/
def ChangePasswordHandler {κ : Type} (env : HandlerEnv κ) (c : Context) (cfg : κ) :
    Context × κ × List ConfigCall :=
  if c.logined != true then (respond c 401 "Unauthorized", cfg, [])
  else
    let pass := c.PostForm "password"
    let pass2 := c.PostForm "password2"
    let c1 := if pass = "" then respond c 400 "Empty password!" else c
    let c2 := if pass ≠ pass2 then respond c1 400 "Password mismatch!" else c1
    match env.SetConfig "password" pass cfg with
    | (some err, cfg1) => (respond c2 500 err, cfg1, [.SetConfig "password" pass])
    | (none, cfg1) => (LogoutHandler env c2, cfg1, [.SetConfig "password" pass])

/-! ## A small concrete installation, used to run the definitions -/

/-- A plugin that resolves every source URL to `<source>/live.m3u8` and hands the extra
information back; it has neither optional capability. -/
def demoPlugin : Plugin Nat :=
  { Parse := fun liveUrl _ extraInfo s => (.ok { LiveUrl := liveUrl ++ "/live.m3u8", ExtraInfo := extraInfo }, s)
    Transform := none
    Check := none }

/-- A plugin whose source is never live: `Parse` fails with the error `errNoMatchFound`. -/
def offlinePlugin : Plugin Nat :=
  { Parse := fun _ _ _ s => (.error "This channel is not currently live", s)
    Transform := none
    Check := none }

/-- A plugin that resolves like `demoPlugin` and whose health check rejects every manifest. -/
def strictPlugin : Plugin Nat :=
  { Parse := demoPlugin.Parse
    Transform := none
    Check := some (fun _ _ s => (some "stale manifest", s)) }

/-- A registry that knows the three strategies "youtube", "offline" and "strict". -/
def demoGetPlugin (name : String) : Except Error (Plugin Nat) :=
  if name = "youtube" then .ok demoPlugin
  else if name = "offline" then .ok offlinePlugin
  else if name = "strict" then .ok strictPlugin
  else .error ("plugin not found: " ++ name)

/-- An installation over the registry `demoGetPlugin`: the outside world is the clock, the
network answers by target URL, the duration probe gives a fixed answer and durations are whole
seconds. -/
def demoEnv (serve : String → Except Error Response) (probe : Int × Option Error) : Env Nat Int :=
  { Now := fun clock => clock
    MaxRetryCount := 3
    GetPlugin := demoGetPlugin
    UpdateURLCacheSingle := UpdateURLCacheSingle demoGetPlugin
    NewRequest := fun url => .ok { URL := url, Query := [], UserAgent := "" }
    Do := fun req s => (serve req.URL, s)
    GetVideoDuration := fun _ s => (probe, s)
    positive := fun d => decide (0 < d)
    Sprintf0 := fun d => toString d
    Sprintf4 := fun d => toString d ++ ".0000" }

/-- The status record of a channel that was never looked at. -/
def freshStatus : StatusInfo :=
  { Status := .Ok, Time := 0, Msg := "", RetryCount := 0, CoolDownMultiplier := 1 }

/-- Stores with an empty cache, fresh status records and the clock at `clock`. -/
def emptyStores (clock : Nat) : Stores Nat :=
  { URLCache := fun _ => none, statusCache := fun _ => freshStatus, ext := clock }

/-- Stores whose cache holds the single entry `url ↦ li`. -/
def warmStores (url : String) (li : LiveInfo) (clock : Nat) : Stores Nat :=
  { URLCache := fun k => if k = url then some li else none
    statusCache := fun _ => freshStatus
    ext := clock }

/-- A network on which nothing answers. -/
def noNetwork (_ : String) : Except Error Response := .error "connection refused"

/-- A network with a live manifest at "https://a.example/ch/live.m3u8" and an HTML page at
"https://cdn.example/page"; every other address answers 503. -/
def demoServe (url : String) : Except Error Response :=
  if url = "https://a.example/ch/live.m3u8" then
    .ok { StatusCode := 200, ContentType := "application/vnd.apple.mpegurl", ContentLength := 26,
          Body := .ok "#EXTM3U\n#EXTINF:2,\nseg.ts\n" }
  else if url = "https://cdn.example/page" then
    .ok { StatusCode := 200, ContentType := "text/html", ContentLength := 22,
          Body := .ok "<html>not found</html>" }
  else
    .ok { StatusCode := 503, ContentType := "", ContentLength := 0, Body := .ok "" }

/-- A configuration store that keeps the last value set under each key and never fails, with
a session store that never fails. -/
def demoHandlerEnv : HandlerEnv (String → String) :=
  { SetConfig := fun key value cfg => (none, fun k => if k = key then value else cfg k)
    Save := fun _ => none }

/-- A configuration whose password is "old". -/
def oldConfig (key : String) : String := if key = "password" then "old" else ""

/-- A logged-in request that posts `password` and `password2`, nothing written yet. -/
def passwordRequest (password password2 : String) : Context :=
  { logined := true
    PostForm := fun name =>
      if name = "password" then password else if name = "password2" then password2 else ""
    status := none
    body := "" }

/-! ## Arithmetic of the cooldown -/

theorem wrapInt64_of_range (x : Int) (h1 : minDuration ≤ x) (h2 : x ≤ maxDuration) :
    wrapInt64 x = x := by
  unfold wrapInt64
  unfold minDuration at h1
  unfold maxDuration at h2
  omega

theorem coolDownInterval_eq_min (m : Int) (h1 : minDuration ≤ Second * m)
    (h2 : Second * m ≤ maxDuration) :
    coolDownInterval m = min (Minute * 2) (Second * m) := by
  unfold coolDownInterval mulDuration
  rw [wrapInt64_of_range _ h1 h2]
  simp only []
  split
  · rw [min_eq_left]; omega
  · rw [min_eq_right]; omega

theorem Sub_le_iff (t u c : Int) (h1 : minDuration ≤ c) (h2 : c < maxDuration) :
    Sub t u ≤ c ↔ t - u ≤ c := by
  unfold Sub
  split
  · constructor <;> intro h <;> omega
  · split
    · constructor <;> intro h <;> omega
    · rfl

theorem coolDownInterval_range (m : Int) :
    minDuration ≤ coolDownInterval m ∧ coolDownInterval m < maxDuration := by
  unfold coolDownInterval mulDuration wrapInt64 minDuration maxDuration Minute Second
  simp only []
  split <;> omega

/-! ## Claims -/

/-- C1: on a cache miss the cooldown interval is `min(2 minutes, 1 second × CoolDownMultiplier)`
(for every multiplier whose product with one second is a `time.Duration`); when
`now - status.Time` is at most that interval `GetLiveM3U8` returns no `LiveInfo` and the error
"parser cooling down", leaves the stores alone and makes no call but `GetStatus`; when it is
larger, `GetLiveM3U8` calls `UpdateURLCacheSingle` once, with `resetCooldown = true`. -/
theorem GetLiveM3U8_cooldown {ω δ : Type} (env : Env ω δ) (youtubeURL proxyUrl Parser : String)
    (s : Stores ω) (hmiss : s.URLCache youtubeURL = none)
    (hlo : minDuration ≤ Second * (GetStatus youtubeURL s).CoolDownMultiplier)
    (hhi : Second * (GetStatus youtubeURL s).CoolDownMultiplier ≤ maxDuration) :
    coolDownInterval (GetStatus youtubeURL s).CoolDownMultiplier
        = min (Minute * 2) (Second * (GetStatus youtubeURL s).CoolDownMultiplier) ∧
    (env.Now s.ext - (GetStatus youtubeURL s).Time
        ≤ min (Minute * 2) (Second * (GetStatus youtubeURL s).CoolDownMultiplier) →
      GetLiveM3U8 env youtubeURL proxyUrl Parser s
        = (.error "parser cooling down", s, [.GetStatus youtubeURL])) ∧
    (env.Now s.ext - (GetStatus youtubeURL s).Time
        > min (Minute * 2) (Second * (GetStatus youtubeURL s).CoolDownMultiplier) →
      (GetLiveM3U8 env youtubeURL proxyUrl Parser s).2.2
        = [.GetStatus youtubeURL,
           .UpdateURLCacheSingle { URL := youtubeURL, ProxyUrl := proxyUrl, Parser := Parser } true
             (env.UpdateURLCacheSingle
               { URL := youtubeURL, ProxyUrl := proxyUrl, Parser := Parser } true s).2.2]) := by
  have hcd := coolDownInterval_eq_min _ hlo hhi
  have hr := coolDownInterval_range (GetStatus youtubeURL s).CoolDownMultiplier
  have hsub := Sub_le_iff (env.Now s.ext) (GetStatus youtubeURL s).Time _ hr.1 hr.2
  refine ⟨hcd, ?_, ?_⟩
  · intro h
    rw [← hcd] at h
    have h2 : ¬ Sub (env.Now s.ext) (GetStatus youtubeURL s).Time
        > coolDownInterval (GetStatus youtubeURL s).CoolDownMultiplier := by
      rw [not_lt]; exact hsub.mpr h
    simp only [GetLiveM3U8, hmiss, if_neg h2]
  · intro h
    rw [← hcd] at h
    have h2 : Sub (env.Now s.ext) (GetStatus youtubeURL s).Time
        > coolDownInterval (GetStatus youtubeURL s).CoolDownMultiplier := by
      by_contra hn
      rw [not_lt] at hn
      have := hsub.mp hn
      omega
    simp only [GetLiveM3U8, hmiss, if_pos h2]
    split <;> (rename_i heq; rw [heq])

/-- C1, run: half a second after the last check of a fresh channel with an empty cache the
parser is cooling down. -/
theorem GetLiveM3U8_cooldown_witness :
    (emptyStores 500000000).URLCache "https://a.example/ch" = none ∧
    GetLiveM3U8 (demoEnv noNetwork (0, none)) "https://a.example/ch" "" "youtube"
        (emptyStores 500000000)
      = (.error "parser cooling down", emptyStores 500000000,
          [.GetStatus "https://a.example/ch"]) :=
  ⟨rfl,
    (GetLiveM3U8_cooldown (demoEnv noNetwork (0, none)) "https://a.example/ch" "" "youtube"
      (emptyStores 500000000) rfl (by decide) (by decide)).2.1 (by decide)⟩

/-- C2: when the cache holds an entry for the source URL, `GetLiveM3U8` returns exactly that
entry with a nil error, leaves the stores (cache and status store) as they are and makes no
call at all: no `GetStatus`, no `UpdateURLCacheSingle`, no plugin invocation; a second call
right after the first one returns the same. -/
theorem GetLiveM3U8_cache_hit {ω δ : Type} (env : Env ω δ) (youtubeURL proxyUrl Parser : String)
    (s : Stores ω) (liveInfo : LiveInfo) (hhit : s.URLCache youtubeURL = some liveInfo) :
    GetLiveM3U8 env youtubeURL proxyUrl Parser s = (.ok liveInfo, s, []) ∧
    GetLiveM3U8 env youtubeURL proxyUrl Parser (GetLiveM3U8 env youtubeURL proxyUrl Parser s).2.1
      = (.ok liveInfo, s, []) := by
  have h : GetLiveM3U8 env youtubeURL proxyUrl Parser s = (.ok liveInfo, s, []) := by
    simp only [GetLiveM3U8, hhit]
  exact ⟨h, by rw [h]; exact h⟩

/-- C2, run: with the entry of "https://a.example/ch" in the cache, the call returns it and
nothing else happens. -/
theorem GetLiveM3U8_cache_hit_witness :
    GetLiveM3U8 (demoEnv noNetwork (0, none)) "https://a.example/ch" "" "youtube"
        (warmStores "https://a.example/ch" { LiveUrl := "https://cdn.example/1.m3u8", ExtraInfo := "t" } 5)
      = (.ok { LiveUrl := "https://cdn.example/1.m3u8", ExtraInfo := "t" },
         warmStores "https://a.example/ch" { LiveUrl := "https://cdn.example/1.m3u8", ExtraInfo := "t" } 5,
         []) :=
  (GetLiveM3U8_cache_hit (demoEnv noNetwork (0, none)) "https://a.example/ch" "" "youtube"
    (warmStores "https://a.example/ch" { LiveUrl := "https://cdn.example/1.m3u8", ExtraInfo := "t" } 5)
    { LiveUrl := "https://cdn.example/1.m3u8", ExtraInfo := "t" } (by decide)).1

/-! ### The cooldown multiplier under failures -/

theorem multiplier_bumpCoolDown {ω : Type} (url : String) (s : Stores ω) :
    multiplier url (bumpCoolDown url s) = doubled (multiplier url s) := by
  unfold bumpCoolDown multiplier doubled
  simp only []
  split
  · simp [GetStatus, setStatus]
  · rfl

theorem failed_call_multiplier {ω δ : Type} {env : Env ω δ}
    (hspec : env.UpdateURLCacheSingle = UpdateURLCacheSingle env.GetPlugin)
    (hplugin : ∀ name p, env.GetPlugin name = .ok p →
      ∀ liveUrl proxyUrl extraInfo s url,
        multiplier url (p.Parse liveUrl proxyUrl extraInfo s).2 = multiplier url s)
    {url proxyUrl Parser : String} {t : Stores ω} {err : Error}
    (hmiss : t.URLCache url = none)
    (hcool : Sub (env.Now t.ext) (GetStatus url t).Time > coolDownInterval (multiplier url t))
    (herr : (GetLiveM3U8 env url proxyUrl Parser t).1 = .error err) :
    ((∃ e, env.GetPlugin (if Parser = "" then "youtube" else Parser) = .error e) ∧
      multiplier url (GetLiveM3U8 env url proxyUrl Parser t).2.1
        = doubled (multiplier url t)) ∨
    ((∃ p, env.GetPlugin (if Parser = "" then "youtube" else Parser) = .ok p) ∧
      multiplier url (GetLiveM3U8 env url proxyUrl Parser t).2.1
        = doubled (doubled (multiplier url t))) := by
  unfold multiplier at hcool
  cases hreg : env.GetPlugin (if Parser = "" then "youtube" else Parser) with
  | error e =>
    left
    refine ⟨⟨e, rfl⟩, ?_⟩
    simp only [GetLiveM3U8, hmiss, if_pos hcool, hspec, UpdateURLCacheSingle, RealLiveM3U8, hreg]
    exact multiplier_bumpCoolDown url t
  | ok p =>
    right
    refine ⟨⟨p, rfl⟩, ?_⟩
    have hframe := hplugin _ p hreg url proxyUrl "" t url
    simp only [GetLiveM3U8, hmiss, if_pos hcool, hspec, UpdateURLCacheSingle, RealLiveM3U8, hreg]
      at herr ⊢
    cases hparse : (p.Parse url proxyUrl "" t).1 with
    | ok li =>
      simp only [hparse] at herr
      simp at herr
    | error e =>
      simp only [hparse]
      rw [multiplier_bumpCoolDown, multiplier_bumpCoolDown, hframe]

theorem doubled_of_power (m : Int) (h : ∃ k : Nat, k ≤ 10 ∧ m = 2 ^ k) :
    (∃ k : Nat, k ≤ 10 ∧ doubled m = 2 ^ k) ∧ m ≤ doubled m ∧
    (m < 1024 → doubled m = 2 * m) ∧ (m = 1024 → doubled m = 1024) := by
  obtain ⟨k, hk, rfl⟩ := h
  have hpos : (0 : Int) < 2 ^ k := by positivity
  have hw : (2 : Int) ^ k < 1024 → doubled (2 ^ k) = 2 * 2 ^ k := by
    intro hlt
    unfold doubled wrapInt64
    rw [if_pos hlt]
    omega
  have hcap : ¬ (2 : Int) ^ k < 1024 → doubled (2 ^ k) = 2 ^ k := by
    intro hge
    unfold doubled
    rw [if_neg hge]
  refine ⟨?_, ?_, hw, ?_⟩
  · by_cases hlt : (2 : Int) ^ k < 1024
    · rw [hw hlt]
      have hne : k ≠ 10 := by
        rintro rfl
        norm_num at hlt
      exact ⟨k + 1, by omega, by ring⟩
    · rw [hcap hlt]
      exact ⟨k, hk, rfl⟩
  · by_cases hlt : (2 : Int) ^ k < 1024
    · rw [hw hlt]; omega
    · rw [hcap hlt]
  · intro heq
    rw [hcap (by omega), heq]

theorem power_bounds (m : Int) (h : ∃ k : Nat, k ≤ 10 ∧ m = 2 ^ k) : 1 ≤ m ∧ m ≤ 1024 := by
  obtain ⟨k, hk, rfl⟩ := h
  interval_cases k <;> norm_num

theorem doubled_twice_of_power (m : Int) (h : ∃ k : Nat, k ≤ 10 ∧ m = 2 ^ k) :
    doubled (doubled m) = min (4 * m) 1024 := by
  obtain ⟨k, hk, rfl⟩ := h
  interval_cases k <;> norm_num [doubled, wrapInt64]

theorem FailedSeq.power_of_two {ω δ : Type} {env : Env ω δ}
    (hspec : env.UpdateURLCacheSingle = UpdateURLCacheSingle env.GetPlugin)
    (hplugin : ∀ name p, env.GetPlugin name = .ok p →
      ∀ liveUrl proxyUrl extraInfo s url,
        multiplier url (p.Parse liveUrl proxyUrl extraInfo s).2 = multiplier url s)
    {url : String} {s t : Stores ω} (h1 : multiplier url s = 1) (h : FailedSeq env url s t) :
    (∃ k : Nat, k ≤ 10 ∧ multiplier url t = 2 ^ k) ∧ multiplier url s ≤ multiplier url t := by
  induction h with
  | start => exact ⟨⟨0, by omega, by simpa using h1⟩, le_refl _⟩
  | other t u _ heq ih => rw [heq]; exact ih
  | failure t u _ hf ih =>
    obtain ⟨proxyUrl, Parser, err, hmiss, hcool, herr, rfl⟩ := hf
    have hd := doubled_of_power _ ih.1
    have hdd := doubled_of_power _ hd.1
    rcases failed_call_multiplier hspec hplugin hmiss hcool herr with ⟨_, hm⟩ | ⟨_, hm⟩
    · rw [hm]
      exact ⟨hd.1, le_trans ih.2 hd.2.1⟩
    · rw [hm]
      exact ⟨hdd.1, le_trans ih.2 (le_trans hd.2.1 hdd.2.1)⟩

theorem demo_plugins_frame (name : String) (p : Plugin Nat) (h : demoGetPlugin name = .ok p)
    (liveUrl proxyUrl extraInfo : String) (s : Stores Nat) (url : String) :
    multiplier url (p.Parse liveUrl proxyUrl extraInfo s).2 = multiplier url s := by
  unfold demoGetPlugin at h
  split at h
  · cases h; rfl
  · split at h
    · cases h; rfl
    · split at h
      · cases h; rfl
      · simp at h

/-- C3, as stated, fails: a fresh channel (multiplier 1, below 1024) misses the cache five
seconds after its last check and the plugin's resolution fails; this one failure takes the
multiplier to 4, not to 2: it is doubled inside `UpdateURLCacheSingle` and again at lines
51-53 of `GetLiveM3U8`. -/
theorem CoolDownMultiplier_plugin_failure_quadruples :
    multiplier "https://a.example/ch" (emptyStores 5000000000) = 1 ∧
    (emptyStores 5000000000).URLCache "https://a.example/ch" = none ∧
    Sub ((demoEnv noNetwork (0, none)).Now (emptyStores 5000000000).ext)
        (GetStatus "https://a.example/ch" (emptyStores 5000000000)).Time
      > coolDownInterval (multiplier "https://a.example/ch" (emptyStores 5000000000)) ∧
    (GetLiveM3U8 (demoEnv noNetwork (0, none)) "https://a.example/ch" "" "offline"
        (emptyStores 5000000000)).1 = .error "This channel is not currently live" ∧
    multiplier "https://a.example/ch"
        (GetLiveM3U8 (demoEnv noNetwork (0, none)) "https://a.example/ch" "" "offline"
          (emptyStores 5000000000)).2.1 = 4 ∧
    multiplier "https://a.example/ch"
        (GetLiveM3U8 (demoEnv noNetwork (0, none)) "https://a.example/ch" "" "offline"
          (emptyStores 5000000000)).2.1
      ≠ 2 * multiplier "https://a.example/ch" (emptyStores 5000000000) :=
  ⟨rfl, rfl, by decide, rfl, by decide, by decide⟩

/-- C3, as amended: with `UpdateURLCacheSingle` as the spec describes it and plugins that leave
the status store alone, for a channel whose `CoolDownMultiplier` is 1 at the start, after any
sequence of failed cache-miss resolutions through `GetLiveM3U8` the multiplier lies between 1
and 1024 and is at least what it was at the start; one more failure never lowers it and never
takes it beyond 1024; it doubles it while it is below 1024 when the strategy is not
registered, multiplies it by four, capped at 1024, when the plugin's resolution fails, and
leaves it at 1024 once it is there. -/
theorem CoolDownMultiplier_under_failures {ω δ : Type} (env : Env ω δ)
    (hspec : env.UpdateURLCacheSingle = UpdateURLCacheSingle env.GetPlugin)
    (hplugin : ∀ name p, env.GetPlugin name = .ok p →
      ∀ liveUrl proxyUrl extraInfo s url,
        multiplier url (p.Parse liveUrl proxyUrl extraInfo s).2 = multiplier url s)
    (url proxyUrl Parser : String) (s t : Stores ω) (err : Error)
    (h1 : multiplier url s = 1) (hseq : FailedSeq env url s t)
    (hmiss : t.URLCache url = none)
    (hcool : Sub (env.Now t.ext) (GetStatus url t).Time > coolDownInterval (multiplier url t))
    (herr : (GetLiveM3U8 env url proxyUrl Parser t).1 = .error err) :
    1 ≤ multiplier url t ∧ multiplier url t ≤ 1024 ∧ multiplier url s ≤ multiplier url t ∧
    multiplier url t ≤ multiplier url (GetLiveM3U8 env url proxyUrl Parser t).2.1 ∧
    multiplier url (GetLiveM3U8 env url proxyUrl Parser t).2.1 ≤ 1024 ∧
    (multiplier url t = 1024 →
      multiplier url (GetLiveM3U8 env url proxyUrl Parser t).2.1 = 1024) ∧
    ((∃ e, env.GetPlugin (if Parser = "" then "youtube" else Parser) = .error e) →
      multiplier url t < 1024 →
      multiplier url (GetLiveM3U8 env url proxyUrl Parser t).2.1 = 2 * multiplier url t) ∧
    ((∃ p, env.GetPlugin (if Parser = "" then "youtube" else Parser) = .ok p) →
      multiplier url (GetLiveM3U8 env url proxyUrl Parser t).2.1
        = min (4 * multiplier url t) 1024) := by
  have ht := FailedSeq.power_of_two hspec hplugin h1 hseq
  have hd := doubled_of_power _ ht.1
  have hdd := doubled_of_power _ hd.1
  have h4 := doubled_twice_of_power _ ht.1
  have bt := power_bounds _ ht.1
  have bd := power_bounds _ hd.1
  have bdd := power_bounds _ hdd.1
  rcases failed_call_multiplier hspec hplugin hmiss hcool herr with ⟨⟨e, he⟩, hm⟩ | ⟨⟨p, hp⟩, hm⟩
  · refine ⟨bt.1, bt.2, ht.2, ?_, ?_, ?_, ?_, ?_⟩
    · rw [hm]; exact hd.2.1
    · rw [hm]; exact bd.2
    · intro heq; rw [hm]; exact hd.2.2.2 heq
    · intro _ hlt; rw [hm]; exact hd.2.2.1 hlt
    · rintro ⟨p, hp⟩
      rw [he] at hp
      simp at hp
  · refine ⟨bt.1, bt.2, ht.2, ?_, ?_, ?_, ?_, ?_⟩
    · rw [hm]; exact le_trans hd.2.1 hdd.2.1
    · rw [hm]; exact bdd.2
    · intro heq
      rw [hm, hd.2.2.2 heq]
      exact (doubled_of_power 1024 ⟨10, le_refl _, by norm_num⟩).2.2.2 rfl
    · rintro ⟨e, he⟩
      rw [hp] at he
      simp at he
    · intro _
      rw [hm, h4]

/-- C3, run: the first failed resolution of a fresh channel takes the multiplier from 1 to 4
when the plugin fails. -/
theorem CoolDownMultiplier_under_failures_witness :
    multiplier "https://a.example/ch" (emptyStores 5000000000) = 1 ∧
    multiplier "https://a.example/ch"
        (GetLiveM3U8 (demoEnv noNetwork (0, none)) "https://a.example/ch" "" "offline"
          (emptyStores 5000000000)).2.1
      = min (4 * multiplier "https://a.example/ch" (emptyStores 5000000000)) 1024 :=
  ⟨rfl,
    (CoolDownMultiplier_under_failures (demoEnv noNetwork (0, none)) rfl demo_plugins_frame
      "https://a.example/ch" "" "offline" (emptyStores 5000000000) (emptyStores 5000000000)
      "This channel is not currently live" rfl (FailedSeq.start _) rfl (by decide)
      rfl).2.2.2.2.2.2.2 ⟨offlinePlugin, rfl⟩⟩

/-! ### Calls made by `GetM3U8Content` -/

theorem buildRequest_events {ω δ : Type} (env : Env ω δ) (c : Values) (Parser : String)
    (li : Option LiveInfo) (req0 : Request) (s : Stores ω) :
    reparses (buildRequest env c Parser li req0 s).2.2 = 0 ∧
    recursions (buildRequest env c Parser li req0 s).2.2 = 0 ∧
    fetches (buildRequest env c Parser li req0 s).2.2 = 0 ∧
    (buildRequest env c Parser li req0 s).2.2.countP Event.isCheck = 0 ∧
    (buildRequest env c Parser li req0 s).2.2.all Event.flagged = true := by
  unfold buildRequest decorate
  split
  · split <;>
      simp [reparses, recursions, fetches, Event.isReparse, Event.isNested, Event.isDo,
        Event.isCheck, Event.flagged]
  · simp [reparses, recursions, fetches]

theorem fallback_events {ω δ : Type} (env : Env ω δ) (ChannelURL liveM3U8 : String)
    (s : Stores ω) :
    (fallback env ChannelURL liveM3U8 s).2.2 =
      [.UpdateStatus ChannelURL .Warning "Url is not a live stream",
       .GetVideoDuration ChannelURL] := by
  unfold fallback
  simp only []
  split
  · split <;> rfl
  · rfl

theorem retry_flagged {ω δ : Type} (env : Env ω δ)
    (ChannelURL liveM3U8 ProxyUrl Parser : String)
    (nested : String → Stores ω → Option (Run ω))
    (bodyString : String) (err : Option Error) (s : Stores ω) :
    retry env true ChannelURL liveM3U8 ProxyUrl Parser nested bodyString err s
      = some (.ret (bodyString, liveM3U8, err), s, [.GetStatus ChannelURL]) := by
  simp [retry]

theorem flagged_call {ω δ : Type} (env : Env ω δ) (fuel : Nat) (c : Values)
    (ChannelURL liveM3U8 ProxyUrl Parser : String) (flags : List Bool) (s : Stores ω)
    (hflag : retryFlagOf flags = true) :
    ∃ r, GetM3U8Content env (fuel + 1) c ChannelURL liveM3U8 ProxyUrl Parser flags s = some r ∧
      reparses r.2.2 = 0 ∧ recursions r.2.2 = 0 ∧ fetches r.2.2 ≤ 1 ∧
      r.2.2.all Event.flagged = true := by
  simp only [GetM3U8Content, hflag, retry_flagged]
  split
  · simp [reparses, recursions, fetches]
  · rename_i req0 _
    have hd := buildRequest_events env c Parser (s.URLCache ChannelURL) req0 s
    generalize buildRequest env c Parser (s.URLCache ChannelURL) req0 s = d at hd ⊢
    obtain ⟨req, s1, evs1⟩ := d
    simp only [reparses, recursions, fetches] at hd
    obtain ⟨h1, h2, h3, _, h5⟩ := hd
    repeat' split
    all_goals
      simp only [after]
      refine ⟨_, rfl, ?_, ?_, ?_, ?_⟩ <;>
        simp only [fallback_events, reparses, recursions, fetches, List.countP_append,
          List.countP_cons, List.countP_nil, Event.isReparse, Event.isNested, Event.isDo,
          List.all_append, List.all_cons, List.all_nil, Event.flagged, h1, h2, h3, h5] <;>
        simp

theorem retry_bound {ω δ : Type} (env : Env ω δ) (retryFlag : Bool)
    (ChannelURL liveM3U8 ProxyUrl Parser : String)
    (nested : String → Stores ω → Option (Run ω))
    (bodyString : String) (err : Option Error) (s : Stores ω)
    (hn : ∀ url s1, ∃ r, nested url s1 = some r ∧ reparses r.2.2 = 0 ∧ recursions r.2.2 = 0 ∧
      fetches r.2.2 ≤ 1 ∧ r.2.2.all Event.flagged = true) :
    ∃ r, retry env retryFlag ChannelURL liveM3U8 ProxyUrl Parser nested bodyString err s = some r ∧
      reparses r.2.2 ≤ 1 ∧ recursions r.2.2 ≤ 1 ∧ fetches r.2.2 ≤ 1 ∧
      r.2.2.all Event.flagged = true ∧
      ((∃ msg, r.1 = .panic msg) ∨ ∃ b u, r.1 = .ret (b, u, err)) := by
  unfold retry
  simp only []
  split
  · split
    · rename_i li s1 calls heq
      obtain ⟨r, hr, h1, h2, h3, h4⟩ :=
        hn li.LiveUrl (UpdateStatus env ChannelURL .Warning "Unhealthy" s1)
      rw [hr]
      obtain ⟨res, s3, evs⟩ := r
      simp only [reparses, recursions, fetches] at h1 h2 h3 h4
      cases res with
      | panic msg =>
        refine ⟨_, rfl, ?_, ?_, ?_, ?_, Or.inl ⟨msg, rfl⟩⟩ <;>
          simp only [reparses, recursions, fetches, List.countP_append, List.countP_cons,
            List.countP_nil, Event.isReparse, Event.isNested, Event.isDo, List.all_append,
            List.all_cons, List.all_nil, Event.flagged, h1, h2, h4] <;>
          (simp; try omega)
      | ret a =>
        obtain ⟨b, u, e⟩ := a
        cases e with
        | none =>
          refine ⟨_, rfl, ?_, ?_, ?_, ?_, Or.inr ⟨b, u, rfl⟩⟩ <;>
            simp only [reparses, recursions, fetches, List.countP_append, List.countP_cons,
              List.countP_nil, Event.isReparse, Event.isNested, Event.isDo, List.all_append,
              List.all_cons, List.all_nil, Event.flagged, h1, h2, h4] <;>
            (simp; try omega)
        | some e1 =>
          refine ⟨_, rfl, ?_, ?_, ?_, ?_, Or.inr ⟨b, u, rfl⟩⟩ <;>
            simp only [reparses, recursions, fetches, List.countP_append, List.countP_cons,
              List.countP_nil, Event.isReparse, Event.isNested, Event.isDo, List.all_append,
              List.all_cons, List.all_nil, Event.flagged, h1, h2, h4] <;>
            (simp; try omega)
    · refine ⟨_, rfl, ?_, ?_, ?_, ?_, Or.inr ⟨_, _, rfl⟩⟩ <;>
        simp [reparses, recursions, fetches, Event.isReparse, Event.isNested, Event.isDo,
          Event.flagged]
  · refine ⟨_, rfl, ?_, ?_, ?_, ?_, Or.inr ⟨_, _, rfl⟩⟩ <;>
      simp [reparses, recursions, fetches, Event.isReparse, Event.isNested, Event.isDo,
        Event.flagged]

theorem after_bound {ω : Type} (pre : List Event) (o : Option (Run ω)) (err : Error)
    (hp : reparses pre = 0 ∧ recursions pre = 0 ∧ fetches pre ≤ 1 ∧ pre.all Event.flagged = true)
    (ho : ∃ r, o = some r ∧ reparses r.2.2 ≤ 1 ∧ recursions r.2.2 ≤ 1 ∧ fetches r.2.2 ≤ 1 ∧
      r.2.2.all Event.flagged = true ∧
      ((∃ msg, r.1 = .panic msg) ∨ ∃ b u, r.1 = .ret (b, u, some err))) :
    ∃ r, after pre o = some r ∧ reparses r.2.2 ≤ 1 ∧ recursions r.2.2 ≤ 1 ∧ fetches r.2.2 ≤ 2 ∧
      r.2.2.all Event.flagged = true ∧
      (1 ≤ reparses r.2.2 →
        (∃ msg, r.1 = .panic msg) ∨ ∃ b u e, r.1 = .ret (b, u, some e)) := by
  obtain ⟨r, rfl, h1, h2, h3, h4, h5⟩ := ho
  obtain ⟨p1, p2, p3, p4⟩ := hp
  obtain ⟨res, s1, evs⟩ := r
  simp only [reparses, recursions, fetches] at *
  refine ⟨_, rfl, ?_, ?_, ?_, ?_, ?_⟩
  · simp only [reparses, List.countP_append]; omega
  · simp only [recursions, List.countP_append]; omega
  · simp only [fetches, List.countP_append]; omega
  · simp only [List.all_append, p4, h4, Bool.and_self]
  · intro _
    rcases h5 with h | ⟨b, u, h⟩
    · exact Or.inl h
    · exact Or.inr ⟨b, u, err, h⟩

/-- C4: an external call of `GetM3U8Content` (retry flag absent or false) returns after at most
one call of `UpdateURLCacheSingle`, at most one recursive call, made with the retry flag set,
and at most two requests, whatever the network, the plugins and the stores do; a call that
went through a reparse ends with an error (so also when the retry fails in its turn); a call
whose retry flag is set returns without any reparse or recursion and after at most one
request. -/
theorem GetM3U8Content_single_retry {ω δ : Type} (env : Env ω δ) (fuel : Nat) (c : Values)
    (ChannelURL liveM3U8 ProxyUrl Parser : String) (flags : List Bool) (s : Stores ω) :
    (retryFlagOf flags = false →
      ∃ r, GetM3U8Content env (fuel + 2) c ChannelURL liveM3U8 ProxyUrl Parser flags s = some r ∧
        reparses r.2.2 ≤ 1 ∧ recursions r.2.2 ≤ 1 ∧ fetches r.2.2 ≤ 2 ∧
        r.2.2.all Event.flagged = true ∧
        (1 ≤ reparses r.2.2 →
          (∃ msg, r.1 = .panic msg) ∨ ∃ b u e, r.1 = .ret (b, u, some e))) ∧
    (retryFlagOf flags = true →
      ∃ r, GetM3U8Content env (fuel + 1) c ChannelURL liveM3U8 ProxyUrl Parser flags s = some r ∧
        reparses r.2.2 = 0 ∧ recursions r.2.2 = 0 ∧ fetches r.2.2 ≤ 1) := by
  refine ⟨?_, ?_⟩
  · intro hflag
    have hret := fun b e s2 =>
      retry_bound env false ChannelURL liveM3U8 ProxyUrl Parser
        (fun url s1 => GetM3U8Content env (fuel + 1) c ChannelURL url ProxyUrl Parser [true] s1)
        b e s2 (fun url s1 => flagged_call env fuel c ChannelURL url ProxyUrl Parser [true] s1 rfl)
    unfold GetM3U8Content
    simp only [hflag]
    split
    · simp [reparses, recursions, fetches]
    · rename_i req0 _
      have hd := buildRequest_events env c Parser (s.URLCache ChannelURL) req0 s
      generalize buildRequest env c Parser (s.URLCache ChannelURL) req0 s = d at hd ⊢
      obtain ⟨req, s1, evs1⟩ := d
      simp only [reparses, recursions, fetches] at hd
      obtain ⟨h1, h2, h3, _, h5⟩ := hd
      have hpre : ∀ tail : List Event, reparses tail = 0 → recursions tail = 0 →
          fetches tail ≤ 1 → tail.all Event.flagged = true →
          reparses (evs1 ++ tail) = 0 ∧ recursions (evs1 ++ tail) = 0 ∧
            fetches (evs1 ++ tail) ≤ 1 ∧ (evs1 ++ tail).all Event.flagged = true := by
        intro tail t1 t2 t3 t4
        simp only [reparses, recursions, fetches, List.countP_append, List.all_append] at *
        refine ⟨by omega, by omega, by omega, by simp [h5, t4]⟩
      repeat' split
      all_goals
        first
          | (refine after_bound _ _ _ ?_ (hret _ _ _)
             exact hpre _ rfl rfl (by simp [fetches, Event.isDo]) rfl)
          | (simp only [after]
             refine ⟨_, rfl, ?_, ?_, ?_, ?_, ?_⟩ <;>
               simp only [fallback_events, reparses, recursions, fetches, List.countP_append,
                 List.countP_cons, List.countP_nil, Event.isReparse, Event.isNested,
                 Event.isDo, List.all_append, List.all_cons, List.all_nil, Event.flagged,
                 h1, h2, h3, h5] <;>
               simp)
  · intro hflag
    obtain ⟨r, hr, h1, h2, h3, _⟩ :=
      flagged_call env fuel c ChannelURL liveM3U8 ProxyUrl Parser flags s hflag
    exact ⟨r, hr, h1, h2, h3⟩

/-- C4, run: the external call on a stream URL that answers 503 finishes with one reparse, one
recursive call and two requests. -/
theorem GetM3U8Content_single_retry_witness :
    retryFlagOf [] = false ∧
    reparses (eventsOf (GetM3U8Content (demoEnv demoServe (0, none)) 2 [] "https://a.example/ch"
      "https://cdn.example/old.m3u8" "" "youtube" [] (emptyStores 7))) ≤ 1 ∧
    recursions (eventsOf (GetM3U8Content (demoEnv demoServe (0, none)) 2 [] "https://a.example/ch"
      "https://cdn.example/old.m3u8" "" "youtube" [] (emptyStores 7))) ≤ 1 := by
  obtain ⟨r, hr, h1, h2, _⟩ :=
    (GetM3U8Content_single_retry (demoEnv demoServe (0, none)) 0 [] "https://a.example/ch"
      "https://cdn.example/old.m3u8" "" "youtube" [] (emptyStores 7)).1 rfl
  rw [hr]
  exact ⟨rfl, h1, h2⟩

/-! ### What `GetM3U8Content` returns -/

theorem fallback_url {ω δ : Type} (env : Env ω δ) (ChannelURL liveM3U8 : String) (s : Stores ω)
    (b u : String) (e : Option Error)
    (h : (fallback env ChannelURL liveM3U8 s).1 = .ret (b, u, e)) : u = liveM3U8 := by
  unfold fallback at h
  simp only [] at h
  split at h
  · split at h
    · simp only [Res.ret.injEq, Prod.mk.injEq] at h
      exact h.2.1.symm
    · simp at h
  · simp only [Res.ret.injEq, Prod.mk.injEq] at h
    exact h.2.1.symm

theorem fallback_nil_error {ω δ : Type} (env : Env ω δ) (ChannelURL liveM3U8 : String)
    (s s2 : Stores ω) (duration : δ)
    (hprobe : env.GetVideoDuration ChannelURL
        (UpdateStatus env ChannelURL .Warning "Url is not a live stream" s)
      = ((duration, none), s2))
    (hzero : env.positive duration = false) :
    (fallback env ChannelURL liveM3U8 s).1
      = .panic "invalid memory address or nil pointer dereference" := by
  unfold fallback
  simp only [hprobe, hzero]
  rfl

theorem fallback_probe_error {ω δ : Type} (env : Env ω δ) (ChannelURL liveM3U8 : String)
    (s s2 : Stores ω) (duration : δ) (err : Error)
    (hprobe : env.GetVideoDuration ChannelURL
        (UpdateStatus env ChannelURL .Warning "Url is not a live stream" s)
      = ((duration, some err), s2)) :
    (fallback env ChannelURL liveM3U8 s).1
      = .ret ("#EXTM3U\n#EXTINF:-1, video\n#EXT-X-PLAYLIST-TYPE:VOD\n" ++ liveM3U8 ++
          "\n#EXT-X-ENDLIST", liveM3U8, none) := by
  unfold fallback
  simp only [hprobe]
  rfl

theorem flagged_call_url {ω δ : Type} (env : Env ω δ) (fuel : Nat) (c : Values)
    (ChannelURL liveM3U8 ProxyUrl Parser : String) (flags : List Bool) (s : Stores ω)
    (hflag : retryFlagOf flags = true) :
    ∃ r, GetM3U8Content env (fuel + 1) c ChannelURL liveM3U8 ProxyUrl Parser flags s = some r ∧
      ∀ b u e, r.1 = .ret (b, u, e) → u = liveM3U8 := by
  simp only [GetM3U8Content, hflag, retry_flagged]
  repeat' split
  all_goals
    try simp only [after]
    refine ⟨_, rfl, ?_⟩
    intro b u e h
    first
      | exact fallback_url env _ _ _ b u e h
      | (simp only [Res.ret.injEq, Prod.mk.injEq] at h
         exact h.2.1.symm)

/-! ### Trimming -/

theorem dropWhile_rdropWhile_dropWhile (p : Char → Bool) (l : List Char) :
    List.dropWhile p ((l.dropWhile p).rdropWhile p) = (l.dropWhile p).rdropWhile p := by
  have hpre : (l.dropWhile p).rdropWhile p <+: l.dropWhile p := List.rdropWhile_prefix p _
  have hhead := List.head_dropWhile_not p l
  generalize l.dropWhile p = m at hpre hhead ⊢
  cases hk : m.rdropWhile p with
  | nil => rfl
  | cons a t =>
    rw [hk] at hpre
    obtain ⟨r, hr⟩ := hpre
    subst hr
    have h := hhead (by simp)
    simp only [List.cons_append, List.head_cons] at h
    simp [List.dropWhile_cons, h]

theorem TrimSpace_idempotent (s : String) : TrimSpace (TrimSpace s) = TrimSpace s := by
  unfold TrimSpace
  simp only [dropWhile_rdropWhile_dropWhile, List.rdropWhile_idempotent]

theorem isValidM3U_TrimSpace (s : String) : isValidM3U (TrimSpace s) = isValidM3U s := by
  unfold isValidM3U
  simp only [TrimSpace_idempotent]

theorem retried_call_valid_body {ω δ : Type} (env : Env ω δ) (fuel : Nat) (c : Values)
    (ChannelURL liveM3U8 ProxyUrl Parser : String) (flags : List Bool) (s s2 : Stores ω)
    (req0 : Request) (resp : Response) (body : String)
    (hreq : env.NewRequest liveM3U8 = .ok req0)
    (hdo : env.Do (buildRequest env c Parser (s.URLCache ChannelURL) req0 s).1
        (buildRequest env c Parser (s.URLCache ChannelURL) req0 s).2.1 = (.ok resp, s2))
    (hcode : resp.StatusCode = 200) (htype : typeIsValid resp = true)
    (hbody : resp.Body = .ok body) (hvalid : isValidM3U body = true)
    (hcheck : ∀ p check, env.GetPlugin Parser = .ok p → p.Check = some check →
      (check (TrimSpace body) (s.URLCache ChannelURL) s2).1 = none) :
    ∃ s3 evs, GetM3U8Content env (fuel + 1) c ChannelURL liveM3U8 ProxyUrl Parser flags s
      = some (.ret (TrimSpace body, liveM3U8, none), s3, evs) := by
  rw [GetM3U8Content]
  simp only [hreq, hdo, hcode, htype, hbody, isValidM3U_TrimSpace, hvalid]
  simp only [ne_eq, not_true_eq_false, if_false, if_true]
  split
  · rename_i p hp
    split
    · rename_i check hc
      have h := hcheck p check hp hc
      split
      · rename_i healthErr s3 heq
        rw [heq] at h
        simp at h
      · exact ⟨_, _, rfl⟩
    · exact ⟨_, _, rfl⟩
  · exact ⟨_, _, rfl⟩

/-- C6, as amended: on an external call whose first fetch is answered 503 while the retry
count is below `MaxRetryCount`, exactly one reparse is made; when that reparse succeeds the
status is set to Warning "Unhealthy" and `GetM3U8Content` is called again, once, on the newly
resolved `LiveUrl`; when that call returns without error, the final status is Ok "Live!" and
the stream URL returned is the newly resolved `LiveUrl`. -/
theorem GetM3U8Content_reparse_on_503 {ω δ : Type} (env : Env ω δ) (fuel : Nat) (c : Values)
    (ChannelURL liveM3U8 ProxyUrl Parser : String) (flags : List Bool) (s s2 : Stores ω)
    (req0 : Request) (resp : Response)
    (hflag : retryFlagOf flags = false)
    (hreq : env.NewRequest liveM3U8 = .ok req0)
    (hdo : env.Do (buildRequest env c Parser (s.URLCache ChannelURL) req0 s).1
        (buildRequest env c Parser (s.URLCache ChannelURL) req0 s).2.1 = (.ok resp, s2))
    (hcode : resp.StatusCode = 503)
    (hcount : (GetStatus ChannelURL s2).RetryCount < env.MaxRetryCount) :
    ∃ r, GetM3U8Content env (fuel + 2) c ChannelURL liveM3U8 ProxyUrl Parser flags s = some r ∧
      reparses r.2.2 = 1 ∧
      ∀ li s3 calls,
        env.UpdateURLCacheSingle
            { URL := ChannelURL, ProxyUrl := ProxyUrl, Parser := Parser } false s2
          = (.ok li, s3, calls) →
        Event.UpdateStatus ChannelURL .Warning "Unhealthy" ∈ r.2.2 ∧
        Event.GetM3U8Content ChannelURL li.LiveUrl ProxyUrl Parser [true] ∈ r.2.2 ∧
        recursions r.2.2 = 1 ∧
        ∀ b u s4 evs,
          GetM3U8Content env (fuel + 1) c ChannelURL li.LiveUrl ProxyUrl Parser [true]
              (UpdateStatus env ChannelURL .Warning "Unhealthy" s3)
            = some (.ret (b, u, none), s4, evs) →
          (∃ e, r.1 = .ret (b, li.LiveUrl, e)) ∧
          (GetStatus ChannelURL r.2.1).Status = .Ok ∧
          (GetStatus ChannelURL r.2.1).Msg = "Live!" := by
  have hd := buildRequest_events env c Parser (s.URLCache ChannelURL) req0 s
  rw [GetM3U8Content]
  simp only [hflag, hreq, hdo, hcode]
  rw [if_pos (by decide)]
  generalize buildRequest env c Parser (s.URLCache ChannelURL) req0 s = d at hd ⊢
  obtain ⟨req, s1, evs1⟩ := d
  simp only [reparses, recursions, fetches] at hd
  obtain ⟨h1, h2, _, _, _⟩ := hd
  unfold retry
  simp only [Bool.not_false, Bool.true_and, decide_eq_true_eq, hcount, if_true]
  split
  · rename_i li s3 calls heq
    obtain ⟨r, hr, n1, n2, _, _⟩ := flagged_call env fuel c ChannelURL li.LiveUrl ProxyUrl Parser
      [true] (UpdateStatus env ChannelURL .Warning "Unhealthy" s3) rfl
    obtain ⟨r2, hr2, hurl⟩ := flagged_call_url env fuel c ChannelURL li.LiveUrl ProxyUrl Parser
      [true] (UpdateStatus env ChannelURL .Warning "Unhealthy" s3) rfl
    rw [hr] at hr2
    cases hr2
    rw [hr]
    obtain ⟨res, s4, evs⟩ := r
    simp only [reparses, recursions] at n1 n2
    have hcnt : ∀ tail : List Event, tail.countP Event.isReparse = 0 →
        reparses (evs1 ++ [Event.Do req] ++
          ([Event.GetStatus ChannelURL,
            Event.UpdateURLCacheSingle
              { URL := ChannelURL, ProxyUrl := ProxyUrl, Parser := Parser } false calls,
            Event.UpdateStatus ChannelURL .Warning "Unhealthy",
            Event.GetM3U8Content ChannelURL li.LiveUrl ProxyUrl Parser [true]] ++ tail)) = 1 := by
      intro tail ht
      simp only [reparses, List.countP_append, List.countP_cons, List.countP_nil,
        Event.isReparse, h1, ht]
      simp
    have hrec : ∀ tail : List Event, tail.countP Event.isNested = 0 →
        recursions (evs1 ++ [Event.Do req] ++
          ([Event.GetStatus ChannelURL,
            Event.UpdateURLCacheSingle
              { URL := ChannelURL, ProxyUrl := ProxyUrl, Parser := Parser } false calls,
            Event.UpdateStatus ChannelURL .Warning "Unhealthy",
            Event.GetM3U8Content ChannelURL li.LiveUrl ProxyUrl Parser [true]] ++ tail)) = 1 := by
      intro tail ht
      simp only [recursions, List.countP_append, List.countP_cons, List.countP_nil,
        Event.isNested, h2, ht]
      simp
    cases res with
    | panic msg =>
      refine ⟨_, rfl, hcnt evs n1, ?_⟩
      intro li2 s5 calls2 h
      rw [heq] at h
      simp only [Prod.mk.injEq, Except.ok.injEq] at h
      obtain ⟨rfl, rfl, rfl⟩ := h
      refine ⟨by simp, by simp, hrec evs n2, ?_⟩
      intro b u s6 evs2 hnested
      rw [hr] at hnested
      simp at hnested
    | ret a =>
      obtain ⟨b0, u0, e0⟩ := a
      have hu0 : u0 = li.LiveUrl := hurl b0 u0 e0 rfl
      subst hu0
      cases e0 with
      | none =>
        refine ⟨_, rfl, ?_, ?_⟩
        · have := hcnt (evs ++ [Event.UpdateStatus ChannelURL .Ok "Live!"])
            (by simp [List.countP_append, n1, Event.isReparse])
          simpa [List.append_assoc] using this
        · intro li2 s5 calls2 h
          rw [heq] at h
          simp only [Prod.mk.injEq, Except.ok.injEq] at h
          obtain ⟨rfl, rfl, rfl⟩ := h
          refine ⟨by simp, by simp, ?_, ?_⟩
          · have := hrec (evs ++ [Event.UpdateStatus ChannelURL .Ok "Live!"])
              (by simp [List.countP_append, n2, Event.isNested])
            simpa [List.append_assoc] using this
          · intro b u s6 evs2 hnested
            rw [hr] at hnested
            simp only [Option.some.injEq, Prod.mk.injEq, Res.ret.injEq] at hnested
            obtain ⟨⟨rfl, _, _⟩, _, _⟩ := hnested
            exact ⟨⟨_, rfl⟩, by simp [GetStatus, UpdateStatus, setStatus],
              by simp [GetStatus, UpdateStatus, setStatus]⟩
      | some e1 =>
        refine ⟨_, rfl, hcnt evs n1, ?_⟩
        intro li2 s5 calls2 h
        rw [heq] at h
        simp only [Prod.mk.injEq, Except.ok.injEq] at h
        obtain ⟨rfl, rfl, rfl⟩ := h
        refine ⟨by simp, by simp, hrec evs n2, ?_⟩
        intro b u s6 evs2 hnested
        rw [hr] at hnested
        simp at hnested
  · rename_i e s3 calls heq
    refine ⟨_, rfl, ?_, ?_⟩
    · simp only [reparses, List.countP_append, List.countP_cons, List.countP_nil,
        Event.isReparse, h1]
      simp
    · intro li s4 calls2 h
      rw [heq] at h
      simp at h

/-- C6, run: the channel "https://a.example/ch" is Ok with no retries, its stream URL answers
503, the reparse gives a URL that serves a valid manifest: one reparse is made and the channel
ends with the message "Live!". -/
theorem GetM3U8Content_reparse_on_503_witness :
    retryFlagOf [] = false ∧
    reparses (eventsOf (GetM3U8Content (demoEnv demoServe (0, none)) 2 [] "https://a.example/ch"
      "https://cdn.example/old.m3u8" "" "youtube" [] (emptyStores 7))) = 1 ∧
    (GetM3U8Content (demoEnv demoServe (0, none)) 2 [] "https://a.example/ch"
      "https://cdn.example/old.m3u8" "" "youtube" [] (emptyStores 7)).map
        (fun r => (GetStatus "https://a.example/ch" r.2.1).Msg) = some "Live!" := by
  obtain ⟨r, hr, h1, hall⟩ :=
    GetM3U8Content_reparse_on_503 (demoEnv demoServe (0, none)) 0 [] "https://a.example/ch"
      "https://cdn.example/old.m3u8" "" "youtube" [] (emptyStores 7) (emptyStores 7)
      { URL := "https://cdn.example/old.m3u8", Query := [], UserAgent := "" }
      { StatusCode := 503, ContentType := "", ContentLength := 0, Body := .ok "" }
      rfl rfl rfl rfl (by decide)
  have h2 := (hall _ _ _ rfl).2.2.2 _ _ _ _ rfl
  rw [hr]
  exact ⟨rfl, h1, by rw [Option.map_some', h2.2.2]⟩

/-- C6, as stated, fails, in two runs on a channel that is Ok with no retries and whose first
fetch is answered 503. When the reparse fails (the source is not live), the one reparse is
made, no status update to Warning "Unhealthy" takes place and the channel is still Ok. When the
reparse succeeds and the retried fetch is answered 200 with a valid "#EXTM3U" body that the
plugin's health check rejects, the channel ends as Warning "Unhealthy", not Ok "Live!". -/
theorem GetM3U8Content_failed_reparse_sets_no_warning :
    (GetStatus "https://a.example/ch" (emptyStores 7)).Status = .Ok ∧
    (GetStatus "https://a.example/ch" (emptyStores 7)).RetryCount
      < (demoEnv demoServe (0, none)).MaxRetryCount ∧
    (demoServe "https://cdn.example/old.m3u8").toOption.map (fun resp => resp.StatusCode)
      = some 503 ∧
    eventsOf (GetM3U8Content (demoEnv demoServe (0, none)) 2 [] "https://a.example/ch"
        "https://cdn.example/old.m3u8" "" "offline" [] (emptyStores 7))
      = [.Do { URL := "https://cdn.example/old.m3u8", Query := [], UserAgent := DefaultUserAgent },
         .GetStatus "https://a.example/ch",
         .UpdateURLCacheSingle
           { URL := "https://a.example/ch", ProxyUrl := "", Parser := "offline" } false
           [.Parse "https://a.example/ch" "" ""]] ∧
    (GetM3U8Content (demoEnv demoServe (0, none)) 2 [] "https://a.example/ch"
        "https://cdn.example/old.m3u8" "" "offline" [] (emptyStores 7)).map
      (fun r => ((GetStatus "https://a.example/ch" r.2.1).Status,
        (GetStatus "https://a.example/ch" r.2.1).Msg)) = some (.Ok, "") ∧
    (demoServe "https://a.example/ch/live.m3u8").toOption.map
        (fun resp => (resp.StatusCode, typeIsValid resp, resp.Body.toOption.map isValidM3U))
      = some (200, true, some true) ∧
    (GetM3U8Content (demoEnv demoServe (0, none)) 2 [] "https://a.example/ch"
        "https://cdn.example/old.m3u8" "" "strict" [] (emptyStores 7)).map
      (fun r => ((GetStatus "https://a.example/ch" r.2.1).Status,
        (GetStatus "https://a.example/ch" r.2.1).Msg)) = some (.Warning, "Unhealthy") :=
  ⟨rfl, by decide, rfl, rfl, rfl, rfl, rfl⟩

/-- C5 fails on the code: the first fetch is answered 503, the retry flag is absent, the retry
count 0 is below `MaxRetryCount`, the reparse succeeds and the nested call returns the manifest
with a nil error; the outer call returns the nested body and URL together with the error of
the first fetch. -/
theorem GetM3U8Content_retry_success_keeps_error :
    (GetStatus "https://a.example/ch" (emptyStores 7)).RetryCount
      < (demoEnv demoServe (0, none)).MaxRetryCount ∧
    ((demoEnv demoServe (0, none)).UpdateURLCacheSingle
        { URL := "https://a.example/ch", ProxyUrl := "", Parser := "youtube" } false
        (emptyStores 7)).1
      = .ok { LiveUrl := "https://a.example/ch/live.m3u8", ExtraInfo := "" } ∧
    (GetM3U8Content (demoEnv demoServe (0, none)) 1 [] "https://a.example/ch"
        "https://a.example/ch/live.m3u8" "" "youtube" [true]
        (UpdateStatus (demoEnv demoServe (0, none)) "https://a.example/ch" .Warning "Unhealthy"
          ((demoEnv demoServe (0, none)).UpdateURLCacheSingle
            { URL := "https://a.example/ch", ProxyUrl := "", Parser := "youtube" } false
            (emptyStores 7)).2.1)).map (fun r => r.1)
      = some (.ret ("#EXTM3U\n#EXTINF:2,\nseg.ts", "https://a.example/ch/live.m3u8", none)) ∧
    (GetM3U8Content (demoEnv demoServe (0, none)) 2 [] "https://a.example/ch"
        "https://cdn.example/old.m3u8" "" "youtube" [] (emptyStores 7)).map (fun r => r.1)
      = some (.ret ("#EXTM3U\n#EXTINF:2,\nseg.ts", "https://a.example/ch/live.m3u8",
          some "Server response: HTTP 503")) :=
  ⟨by decide, rfl, rfl, rfl⟩

/-- C7 fails on the code: the fetch is answered 200 with the page "<html>not found</html>" of
type text/html; when the duration probe returns 0 with a nil error the call panics at line
184, and when it returns 0 with an error the call returns the fallback manifest, the
unchanged URL and a nil error. -/
theorem GetM3U8Content_zero_duration_panics :
    (GetM3U8Content (demoEnv demoServe (0, none)) 2 [] "https://a.example/ch"
        "https://cdn.example/page" "" "youtube" [] (emptyStores 7)).map (fun r => r.1)
      = some (.panic "invalid memory address or nil pointer dereference") ∧
    (GetM3U8Content (demoEnv demoServe (0, some "no duration")) 2 [] "https://a.example/ch"
        "https://cdn.example/page" "" "youtube" [] (emptyStores 7)).map (fun r => r.1)
      = some (.ret ("#EXTM3U\n#EXTINF:-1, video\n#EXT-X-PLAYLIST-TYPE:VOD\n" ++
          "https://cdn.example/page" ++ "\n#EXT-X-ENDLIST", "https://cdn.example/page", none)) :=
  ⟨rfl, rfl⟩

/-- C8: a response body that, once trimmed, does not begin with "#EXTM3U" is rejected by
`isValidM3U`, and `GetM3U8Content`, when it is answered 200 with that body, continues with the
fallback branch and calls no plugin health check, whatever the content type and length the
response declares. -/
theorem GetM3U8Content_rejects_unmarked {ω δ : Type} (env : Env ω δ) (fuel : Nat) (c : Values)
    (ChannelURL liveM3U8 ProxyUrl Parser : String) (flags : List Bool) (s s2 : Stores ω)
    (req0 : Request) (resp : Response) (body : String)
    (hbad : HasPrefix (TrimSpace body) "#EXTM3U" = false) :
    isValidM3U body = false ∧
    (env.NewRequest liveM3U8 = .ok req0 →
      env.Do (buildRequest env c Parser (s.URLCache ChannelURL) req0 s).1
        (buildRequest env c Parser (s.URLCache ChannelURL) req0 s).2.1 = (.ok resp, s2) →
      resp.StatusCode = 200 → resp.Body = .ok body →
      GetM3U8Content env (fuel + 1) c ChannelURL liveM3U8 ProxyUrl Parser flags s
        = after ((buildRequest env c Parser (s.URLCache ChannelURL) req0 s).2.2 ++
            [.Do (buildRequest env c Parser (s.URLCache ChannelURL) req0 s).1])
            (some (fallback env ChannelURL liveM3U8 s2)) ∧
      (eventsOf (GetM3U8Content env (fuel + 1) c ChannelURL liveM3U8 ProxyUrl Parser flags s)).countP
        Event.isCheck = 0) := by
  have hv : isValidM3U body = false := hbad
  refine ⟨hv, ?_⟩
  intro hreq hdo hcode hbody
  have hd := (buildRequest_events env c Parser (s.URLCache ChannelURL) req0 s).2.2.2.1
  have hrun : GetM3U8Content env (fuel + 1) c ChannelURL liveM3U8 ProxyUrl Parser flags s
      = after ((buildRequest env c Parser (s.URLCache ChannelURL) req0 s).2.2 ++
          [.Do (buildRequest env c Parser (s.URLCache ChannelURL) req0 s).1])
          (some (fallback env ChannelURL liveM3U8 s2)) := by
    rw [GetM3U8Content]
    simp only [hreq, hdo, hcode, hbody, isValidM3U_TrimSpace, hv]
    simp
  refine ⟨hrun, ?_⟩
  rw [hrun]
  simp only [after, eventsOf, fallback_events, List.countP_append, List.countP_cons,
    List.countP_nil, Event.isCheck, hd]
  simp

/-- C8, run: the page "<html>not found</html>" is no manifest although its type is a text type,
and the call that fetches it makes no health check. -/
theorem GetM3U8Content_rejects_unmarked_witness :
    HasPrefix (TrimSpace "<html>not found</html>") "#EXTM3U" = false ∧
    isValidM3U "<html>not found</html>" = false ∧
    (eventsOf (GetM3U8Content (demoEnv demoServe (0, some "no duration")) 1 []
      "https://a.example/ch" "https://cdn.example/page" "" "youtube" [] (emptyStores 7))).countP
        Event.isCheck = 0 :=
  ⟨by decide,
    (GetM3U8Content_rejects_unmarked (demoEnv demoServe (0, some "no duration")) 0 []
      "https://a.example/ch" "https://cdn.example/page" "" "youtube" [] (emptyStores 7)
      (emptyStores 7) { URL := "https://cdn.example/page", Query := [], UserAgent := "" }
      { StatusCode := 200, ContentType := "text/html", ContentLength := 22,
        Body := .ok "<html>not found</html>" }
      "<html>not found</html>" (by decide)).1,
    ((GetM3U8Content_rejects_unmarked (demoEnv demoServe (0, some "no duration")) 0 []
      "https://a.example/ch" "https://cdn.example/page" "" "youtube" [] (emptyStores 7)
      (emptyStores 7) { URL := "https://cdn.example/page", Query := [], UserAgent := "" }
      { StatusCode := 200, ContentType := "text/html", ContentLength := 22,
        Body := .ok "<html>not found</html>" }
      "<html>not found</html>" (by decide)).2 rfl rfl rfl rfl).2⟩

/-- C9, as stated, fails: the strategy "doesnotexist" is not registered, the cache has no
entry and the cooldown has passed; `GetLiveM3U8` returns the registry's error, but the status
record of the URL is not what it was: the multiplier went from 1 to 2. -/
theorem GetLiveM3U8_unregistered_changes_status :
    (emptyStores 5000000000).URLCache "https://a.example/ch" = none ∧
    Sub ((demoEnv noNetwork (0, none)).Now (emptyStores 5000000000).ext)
        (GetStatus "https://a.example/ch" (emptyStores 5000000000)).Time
      > coolDownInterval (GetStatus "https://a.example/ch" (emptyStores 5000000000)).CoolDownMultiplier ∧
    (GetLiveM3U8 (demoEnv noNetwork (0, none)) "https://a.example/ch" "" "doesnotexist"
        (emptyStores 5000000000)).1 = .error "plugin not found: doesnotexist" ∧
    GetStatus "https://a.example/ch"
        (GetLiveM3U8 (demoEnv noNetwork (0, none)) "https://a.example/ch" "" "doesnotexist"
          (emptyStores 5000000000)).2.1
      ≠ GetStatus "https://a.example/ch" (emptyStores 5000000000) ∧
    (GetStatus "https://a.example/ch"
        (GetLiveM3U8 (demoEnv noNetwork (0, none)) "https://a.example/ch" "" "doesnotexist"
          (emptyStores 5000000000)).2.1).CoolDownMultiplier = 2 :=
  ⟨rfl, by decide, rfl, by decide, by decide⟩

/-- C9, as amended: with `UpdateURLCacheSingle` as the spec describes it, a strategy name that
is not registered and a source URL that misses the cache outside the cooldown window,
`GetLiveM3U8` fails with the registry's error, no plugin `Parse` is invoked, the cache and the
world outside are unchanged, the status records of the other URLs are unchanged, and the
record of the URL is unchanged but for its `CoolDownMultiplier`, doubled when it was below
1024. -/
theorem GetLiveM3U8_unregistered_strategy {ω δ : Type} (env : Env ω δ)
    (youtubeURL proxyUrl Parser : String) (s : Stores ω) (err : Error)
    (hspec : env.UpdateURLCacheSingle = UpdateURLCacheSingle env.GetPlugin)
    (hunreg : env.GetPlugin (if Parser = "" then "youtube" else Parser) = .error err)
    (hmiss : s.URLCache youtubeURL = none)
    (hcool : Sub (env.Now s.ext) (GetStatus youtubeURL s).Time
      > coolDownInterval (GetStatus youtubeURL s).CoolDownMultiplier) :
    (GetLiveM3U8 env youtubeURL proxyUrl Parser s).1 = .error err ∧
    (GetLiveM3U8 env youtubeURL proxyUrl Parser s).2.2
      = [.GetStatus youtubeURL,
         .UpdateURLCacheSingle
           { URL := youtubeURL, ProxyUrl := proxyUrl, Parser := Parser } true []] ∧
    (GetLiveM3U8 env youtubeURL proxyUrl Parser s).2.1.URLCache = s.URLCache ∧
    (GetLiveM3U8 env youtubeURL proxyUrl Parser s).2.1.ext = s.ext ∧
    (∀ url, url ≠ youtubeURL →
      GetStatus url (GetLiveM3U8 env youtubeURL proxyUrl Parser s).2.1 = GetStatus url s) ∧
    GetStatus youtubeURL (GetLiveM3U8 env youtubeURL proxyUrl Parser s).2.1
      = { GetStatus youtubeURL s with
          CoolDownMultiplier :=
            if (GetStatus youtubeURL s).CoolDownMultiplier < 1024 then
              wrapInt64 ((GetStatus youtubeURL s).CoolDownMultiplier * 2)
            else (GetStatus youtubeURL s).CoolDownMultiplier } := by
  have hrun : GetLiveM3U8 env youtubeURL proxyUrl Parser s
      = (.error err, bumpCoolDown youtubeURL s,
          [.GetStatus youtubeURL,
           .UpdateURLCacheSingle
             { URL := youtubeURL, ProxyUrl := proxyUrl, Parser := Parser } true []]) := by
    simp only [GetLiveM3U8, hmiss, if_pos hcool, hspec, UpdateURLCacheSingle, RealLiveM3U8,
      hunreg]
  rw [hrun]
  refine ⟨rfl, rfl, ?_, ?_, ?_, ?_⟩
  · unfold bumpCoolDown
    simp only []
    split <;> rfl
  · unfold bumpCoolDown
    simp only []
    split <;> rfl
  · intro url hne
    unfold bumpCoolDown
    simp only []
    split
    · simp [GetStatus, setStatus, hne]
    · rfl
  · unfold bumpCoolDown
    simp only []
    split
    · simp [GetStatus, setStatus]
    · rfl

/-- C9, run: the unknown strategy "doesnotexist" on a fresh channel, five seconds after the
last check. -/
theorem GetLiveM3U8_unregistered_strategy_witness :
    (GetLiveM3U8 (demoEnv noNetwork (0, none)) "https://a.example/ch" "" "doesnotexist"
        (emptyStores 5000000000)).1 = .error "plugin not found: doesnotexist" ∧
    (GetLiveM3U8 (demoEnv noNetwork (0, none)) "https://a.example/ch" "" "doesnotexist"
        (emptyStores 5000000000)).2.2
      = [.GetStatus "https://a.example/ch",
         .UpdateURLCacheSingle
           { URL := "https://a.example/ch", ProxyUrl := "", Parser := "doesnotexist" } true []] :=
  ⟨(GetLiveM3U8_unregistered_strategy (demoEnv noNetwork (0, none)) "https://a.example/ch" ""
      "doesnotexist" (emptyStores 5000000000) "plugin not found: doesnotexist" rfl rfl rfl
      (by decide)).1,
   (GetLiveM3U8_unregistered_strategy (demoEnv noNetwork (0, none)) "https://a.example/ch" ""
      "doesnotexist" (emptyStores 5000000000) "plugin not found: doesnotexist" rfl rfl rfl
      (by decide)).2.1⟩

/-- C10: for a registered parser name (the name "youtube" standing in for the empty one),
`RealLiveM3U8` calls the plugin's `Parse` exactly once, with the source URL, the proxy URL and
the `ExtraInfo` of the cache entry of the source URL (the empty string when there is none),
and returns what `Parse` returns, result and error, with the stores as `Parse` left them. -/
theorem RealLiveM3U8_parses_once {ω : Type} (GetPlugin : String → Except Error (Plugin ω))
    (liveUrl proxyUrl Parser : String) (s : Stores ω) (p : Plugin ω)
    (hreg : GetPlugin (if Parser = "" then "youtube" else Parser) = .ok p) :
    RealLiveM3U8 GetPlugin liveUrl proxyUrl Parser s
      = ((p.Parse liveUrl proxyUrl (((s.URLCache liveUrl).map LiveInfo.ExtraInfo).getD "") s).1,
         (p.Parse liveUrl proxyUrl (((s.URLCache liveUrl).map LiveInfo.ExtraInfo).getD "") s).2,
         [.Parse liveUrl proxyUrl (((s.URLCache liveUrl).map LiveInfo.ExtraInfo).getD "")]) := by
  simp only [RealLiveM3U8, hreg]
  cases h : s.URLCache liveUrl <;> simp

/-- C10, run: with the entry of the source URL in the cache, the plugin "youtube" is called
once with that entry's extra information. -/
theorem RealLiveM3U8_parses_once_witness :
    (RealLiveM3U8 demoGetPlugin "https://a.example/ch" "socks5://p" "youtube"
        (warmStores "https://a.example/ch"
          { LiveUrl := "https://cdn.example/1.m3u8", ExtraInfo := "t" } 5)).2.2
      = [.Parse "https://a.example/ch" "socks5://p" "t"] :=
  congrArg (fun r => r.2.2)
    (RealLiveM3U8_parses_once demoGetPlugin "https://a.example/ch" "socks5://p" "youtube"
      (warmStores "https://a.example/ch"
        { LiveUrl := "https://cdn.example/1.m3u8", ExtraInfo := "t" } 5) demoPlugin rfl)

/-! ### The query of the outbound request -/

theorem valuesAt_Add (v : Values) (key value k : String) :
    valuesAt (Add v key value) k
      = if k = key then valuesAt v key ++ [value] else valuesAt v k := by
  induction v with
  | nil =>
    by_cases h : k = key
    · subst h; simp [Add, valuesAt]
    · have h2 : ¬ key = k := fun e => h e.symm
      simp [Add, valuesAt, h, h2]
  | cons kv rest ih =>
    obtain ⟨k0, vs⟩ := kv
    by_cases h0 : k0 = key
    · subst h0
      by_cases h : k = k0
      · subst h; simp [Add, valuesAt]
      · have h2 : ¬ k0 = k := fun e => h e.symm
        simp [Add, valuesAt, h, h2]
    · by_cases h : k = key
      · subst h
        simp [Add, valuesAt, h0, ih]
      · by_cases h3 : k0 = k
        · simp [Add, valuesAt, h0, h, h3]
        · simp [Add, valuesAt, h0, h, h3, ih]

theorem valuesAt_foldl_Add (values : List String) (q : Values) (key k : String) :
    valuesAt (values.foldl (fun q value => Add q key value) q) k
      = if k = key then valuesAt q key ++ values else valuesAt q k := by
  induction values generalizing q with
  | nil => by_cases h : k = key <;> simp [h]
  | cons x xs ih =>
    rw [List.foldl_cons, ih, valuesAt_Add, valuesAt_Add]
    by_cases h : k = key
    · simp [h]
    · simp [h]

theorem valuesAt_of_not_mem (v : Values) (key : String) (h : key ∉ v.map Prod.fst) :
    valuesAt v key = [] := by
  induction v with
  | nil => rfl
  | cons kv rest ih =>
    obtain ⟨k0, vs⟩ := kv
    simp only [List.map_cons, List.mem_cons, not_or] at h
    have h0 : ¬ k0 = key := fun e => h.1 e.symm
    simp [valuesAt, h0, ih h.2]

theorem valuesAt_forwardQuery (queries reqQuery : Values) (key : String)
    (hmap : (queries.map Prod.fst).Nodup) :
    valuesAt (forwardQuery queries reqQuery) key
      = valuesAt reqQuery key ++
          (if HasPrefix key "header" || ["k", "c", "token"].contains key then []
           else valuesAt queries key) := by
  unfold forwardQuery
  induction queries generalizing reqQuery with
  | nil => simp [valuesAt]
  | cons kv rest ih =>
    obtain ⟨k0, vs⟩ := kv
    simp only [List.map_cons, List.nodup_cons] at hmap
    rw [List.foldl_cons, ih _ hmap.2]
    simp only []
    by_cases hk : k0 = key
    · subst hk
      have hrest := valuesAt_of_not_mem rest k0 hmap.1
      cases hskip : (HasPrefix k0 "header" || ["k", "c", "token"].contains k0)
      · simp only [Bool.false_eq_true, if_false, valuesAt_foldl_Add, if_true, valuesAt, hrest,
          List.append_nil]
      · simp only [if_true, List.append_nil]
    · have hk2 : ¬ key = k0 := fun e => hk e.symm
      cases hskip0 : (HasPrefix k0 "header" || ["k", "c", "token"].contains k0)
      · simp only [Bool.false_eq_true, if_false, valuesAt_foldl_Add, valuesAt, if_neg hk,
          if_neg hk2]
      · simp only [if_true, valuesAt, if_neg hk]

/-- C11: for every inbound query (a map: its keys are distinct, in whatever order the loop
visits them) and every resolved stream URL, the query that `GetM3U8Content` builds for the
outbound request (lines 120-130, before the plugin decorates the request) holds under each
key the resolved URL's own values followed, when the key neither starts with "header" nor is
"k", "c" or "token", by all the caller's values of that key in their order; under a key
that starts with "header" or is "k", "c" or "token" it holds the URL's own values only. -/
theorem GetM3U8Content_forwarded_query {ω δ : Type} (env : Env ω δ) (c : Values)
    (Parser : String) (li : Option LiveInfo) (req0 : Request) (s : Stores ω) (key : String)
    (hmap : (c.map Prod.fst).Nodup) :
    valuesAt (forwardQuery c req0.Query) key
      = valuesAt req0.Query key ++
          (if HasPrefix key "header" || ["k", "c", "token"].contains key then []
           else valuesAt c key) ∧
    buildRequest env c Parser li req0 s
      = decorate env Parser li
          { URL := req0.URL, Query := forwardQuery c req0.Query, UserAgent := DefaultUserAgent } s ∧
    (buildRequest env c Parser none req0 s).1
      = { URL := req0.URL, Query := forwardQuery c req0.Query, UserAgent := DefaultUserAgent } := by
  refine ⟨valuesAt_forwardQuery c req0.Query key hmap, rfl, ?_⟩
  unfold buildRequest decorate
  split
  · split
    · rename_i h
      simp at h
    · rfl
  · rfl

/-- C11, run: the caller sends `token`, `q` (two values) and `header_x`; the resolved URL has
`q` and `sig` of its own: under `q` the outbound query holds the own value and then the
caller's two values. -/
theorem GetM3U8Content_forwarded_query_witness :
    ([("token", ["t1"]), ("q", ["a", "b"]), ("header_x", ["h"])].map Prod.fst).Nodup ∧
    valuesAt
        (forwardQuery [("token", ["t1"]), ("q", ["a", "b"]), ("header_x", ["h"])]
          [("q", ["own"]), ("sig", ["1"])]) "q"
      = ["own", "a", "b"] :=
  ⟨by decide,
    (GetM3U8Content_forwarded_query (demoEnv noNetwork (0, none))
      [("token", ["t1"]), ("q", ["a", "b"]), ("header_x", ["h"])] "youtube" none
      { URL := "https://cdn.example/1.m3u8?q=own&sig=1", Query := [("q", ["own"]), ("sig", ["1"])],
        UserAgent := "" }
      (emptyStores 7) "q" (by decide)).1.trans (by decide)⟩

/-! ### Synthesized manifests -/

theorem marked_manifest (mid : String) :
    HasPrefix ("#EXTM3U\n" ++ mid ++ "\n#EXT-X-ENDLIST") "#EXTM3U" = true ∧
    isValidM3U ("#EXTM3U\n" ++ mid ++ "\n#EXT-X-ENDLIST") = true ∧
    HasSuffix ("#EXTM3U\n" ++ mid ++ "\n#EXT-X-ENDLIST") "#EXT-X-ENDLIST" = true := by
  have hdata : ("#EXTM3U\n" ++ mid ++ "\n#EXT-X-ENDLIST").data
      = '#' :: ("EXTM3U\n".data ++ mid.data ++ "\n#EXT-X-ENDLIS".data) ++ ['T'] := by
    simp [String.data_append]
  have hpre : HasPrefix ("#EXTM3U\n" ++ mid ++ "\n#EXT-X-ENDLIST") "#EXTM3U" = true := by
    unfold HasPrefix
    rw [List.isPrefixOf_iff_prefix]
    exact ⟨'\n' :: (mid.data ++ "\n#EXT-X-ENDLIST".data), by simp [String.data_append]⟩
  have htrim : TrimSpace ("#EXTM3U\n" ++ mid ++ "\n#EXT-X-ENDLIST")
      = "#EXTM3U\n" ++ mid ++ "\n#EXT-X-ENDLIST" := by
    unfold TrimSpace
    rw [hdata, List.cons_append, List.dropWhile_cons_of_neg (by decide), ← List.cons_append,
      List.rdropWhile_concat_neg _ _ _ (by decide), ← hdata]
  refine ⟨hpre, ?_, ?_⟩
  · unfold isValidM3U
    simp only [htrim, hpre]
  · unfold HasSuffix
    rw [List.isSuffixOf_iff_suffix]
    exact ⟨"#EXTM3U\n".data ++ mid.data ++ ['\n'], by simp [String.data_append]⟩

theorem vodManifest_conventional {ω δ : Type} (env : Env ω δ) (duration : δ)
    (liveM3U8 : String) : Conventional liveM3U8 (vodManifest env duration liveM3U8) := by
  have hform : vodManifest env duration liveM3U8
      = "#EXTM3U\n" ++
          ("#EXT-X-VERSION:3\n#EXT-X-TARGETDURATION:" ++ env.Sprintf0 duration ++
            "\n#EXT-X-PLAYLIST-TYPE:VOD\n#EXT-X-MEDIA-SEQUENCE:0\n#EXTINF:" ++
            env.Sprintf4 duration ++ ", video\n" ++ liveM3U8) ++ "\n#EXT-X-ENDLIST" := by
    unfold vodManifest
    apply String.ext
    simp [String.data_append]
  have hm := marked_manifest
    ("#EXT-X-VERSION:3\n#EXT-X-TARGETDURATION:" ++ env.Sprintf0 duration ++
      "\n#EXT-X-PLAYLIST-TYPE:VOD\n#EXT-X-MEDIA-SEQUENCE:0\n#EXTINF:" ++
      env.Sprintf4 duration ++ ", video\n" ++ liveM3U8)
  rw [← hform] at hm
  refine ⟨hm.1, hm.2.1, hm.2.2,
    "#EXTM3U\n#EXT-X-VERSION:3\n#EXT-X-TARGETDURATION:" ++ env.Sprintf0 duration ++
      "\n#EXT-X-PLAYLIST-TYPE:VOD\n#EXT-X-MEDIA-SEQUENCE:0\n",
    env.Sprintf4 duration, "", Or.inl rfl, ?_⟩
  unfold vodManifest
  apply String.ext
  simp [String.data_append]

theorem fakeManifest_conventional (liveM3U8 : String) :
    Conventional liveM3U8 (fakeManifest liveM3U8) := by
  have hform : fakeManifest liveM3U8
      = "#EXTM3U\n" ++ ("#EXTINF:-1, video\n#EXT-X-PLAYLIST-TYPE:VOD\n" ++ liveM3U8) ++
          "\n#EXT-X-ENDLIST" := by
    unfold fakeManifest
    apply String.ext
    simp [String.data_append]
  have hm := marked_manifest ("#EXTINF:-1, video\n#EXT-X-PLAYLIST-TYPE:VOD\n" ++ liveM3U8)
  rw [← hform] at hm
  refine ⟨hm.1, hm.2.1, hm.2.2, "#EXTM3U\n", "-1", "#EXT-X-PLAYLIST-TYPE:VOD\n", Or.inr rfl, ?_⟩
  unfold fakeManifest
  apply String.ext
  simp [String.data_append]

/-- C12: both manifests that the fallback branch of `GetM3U8Content` writes, the one for a
positive duration (line 182) and the one for an unknown duration (line 185), for every resolved
URL and every duration, begin with "#EXTM3U", are accepted by `isValidM3U`, hold an "#EXTINF"
duration record that the resolved URL follows and end with "#EXT-X-ENDLIST"; so does every
manifest that the branch returns. -/
theorem fallback_manifest_conventional {ω δ : Type} (env : Env ω δ)
    (ChannelURL liveM3U8 : String) (s : Stores ω) (duration : δ) :
    Conventional liveM3U8 (vodManifest env duration liveM3U8) ∧
    Conventional liveM3U8 (fakeManifest liveM3U8) ∧
    ∀ body u e, (fallback env ChannelURL liveM3U8 s).1 = .ret (body, u, e) →
      Conventional liveM3U8 body := by
  refine ⟨vodManifest_conventional env duration liveM3U8, fakeManifest_conventional liveM3U8, ?_⟩
  intro body u e h
  unfold fallback at h
  simp only [] at h
  split at h
  · split at h
    · simp only [Res.ret.injEq, Prod.mk.injEq] at h
      rw [← h.1]
      exact vodManifest_conventional env _ liveM3U8
    · simp at h
  · simp only [Res.ret.injEq, Prod.mk.injEq] at h
    rw [← h.1]
    exact fakeManifest_conventional liveM3U8

/-- C12, run: the manifest returned for the page "https://cdn.example/page" when the probe
fails follows the convention. -/
theorem fallback_manifest_conventional_witness :
    (fallback (demoEnv demoServe (0, some "no duration")) "https://a.example/ch"
        "https://cdn.example/page" (emptyStores 7)).1
      = .ret (fakeManifest "https://cdn.example/page", "https://cdn.example/page", none) ∧
    Conventional "https://cdn.example/page" (fakeManifest "https://cdn.example/page") :=
  ⟨rfl,
    (fallback_manifest_conventional (demoEnv demoServe (0, some "no duration"))
      "https://a.example/ch" "https://cdn.example/page" (emptyStores 7) 0).2.2
      (fakeManifest "https://cdn.example/page") "https://cdn.example/page" none rfl⟩

/-! ### Changing the password -/

theorem ChangePasswordHandler_always_stores {κ : Type} (env : HandlerEnv κ) (c : Context)
    (cfg : κ) (hlogin : c.logined = true) :
    (ChangePasswordHandler env c cfg).2.1
      = (env.SetConfig "password" (c.PostForm "password") cfg).2 ∧
    (ChangePasswordHandler env c cfg).2.2
      = [.SetConfig "password" (c.PostForm "password")] := by
  unfold ChangePasswordHandler
  simp only [hlogin, bne_self_eq_false, Bool.false_eq_true, if_false]
  split <;> (rename_i heq; simp [heq])

/-- C13 fails on the code: a logged-in request whose "password" differs from "password2", and
one whose "password" is empty, are both answered 400, and in both the submitted password is
stored all the same by the one call of `SetConfig`: the configuration that held "old" holds
"new", and the empty password, afterwards. -/
theorem ChangePasswordHandler_stores_rejected_password :
    (passwordRequest "new" "other").logined = true ∧
    oldConfig "password" = "old" ∧
    (ChangePasswordHandler demoHandlerEnv (passwordRequest "new" "other") oldConfig).1.status
      = some 400 ∧
    (ChangePasswordHandler demoHandlerEnv (passwordRequest "new" "other") oldConfig).1.body
      = "Password mismatch!" ∧
    (ChangePasswordHandler demoHandlerEnv (passwordRequest "new" "other") oldConfig).2.2
      = [.SetConfig "password" "new"] ∧
    (ChangePasswordHandler demoHandlerEnv (passwordRequest "new" "other") oldConfig).2.1
      "password" = "new" ∧
    (ChangePasswordHandler demoHandlerEnv (passwordRequest "" "") oldConfig).1.status
      = some 400 ∧
    (ChangePasswordHandler demoHandlerEnv (passwordRequest "" "") oldConfig).1.body
      = "Empty password!" ∧
    (ChangePasswordHandler demoHandlerEnv (passwordRequest "" "") oldConfig).2.2
      = [.SetConfig "password" ""] ∧
    (ChangePasswordHandler demoHandlerEnv (passwordRequest "" "") oldConfig).2.1
      "password" = "" := by
  refine ⟨rfl, by decide, ?_, ?_, ?_, ?_, ?_, ?_, ?_, ?_⟩ <;> decide

end LiveTV
